import Mathlib

/-!
# Geodash simulation core: a shallow embedding

This file embeds the per-frame simulation step (`update` in
`src/geodash/components/GameRunner.tsx`) of the Geodash auto-runner in Lean 4,
together with the data model from `src/geodash/types.ts` and the constants from
`src/geodash/constants.ts`, and proves/refutes the frozen claims about it.

Modelling conventions:
* JavaScript numbers are modelled as rationals (`ℚ`); every arithmetic
  operation performed by the relevant code paths (addition, multiplication by
  fixed decimal constants, comparison, absolute value) is exact on `ℚ`.
* The orb proximity test `Math.sqrt(dx*dx+dy*dy) < 32` is modelled as
  `dx*dx + dy*dy < 32*32`, which is equivalent since both sides are
  nonnegative and squaring is monotone on nonnegative reals.
* `Math.round` is `jsRound` (floor of `x + 1/2`, i.e. round half towards +∞,
  which is JavaScript's rounding mode), and the JS remainder `a % b` for the
  nonnegative dividends that occur here is `jsMod`.
* Purely cosmetic state that never feeds back into the simulation or the host
  callbacks is omitted: the particle system, the camera, the screen-shake
  decay, and the 8-point visual trail (`trailRef`).  The editor-test recorder
  trail (`recordedTrailRef`), which is handed to the host, is kept.
* Host callbacks (`onDie`, `onWin`, `onTestComplete`) and orb activations are
  modelled as an event list emitted by each tick, in invocation order.
* The ad-hoc dynamic property `(player as any).lastPortalX` is modelled as an
  `Option ℚ` field; the JS read `lastPortalX || -1000` treats both `undefined`
  and `0` as falsy, which `portalLastX` reproduces.
* `LevelObject.id` is never read by the simulation and `LevelObject.rotation`
  is only used for drawing (collision ignores it), so both are omitted.
-/

/-! ## Constants (src/geodash/constants.ts) -/

def TILE_SIZE : ℚ := 48
def GRAVITY : ℚ := 2
def JUMP_FORCE : ℚ := -24
def ORB_JUMP_FORCE : ℚ := -21
def ORB_JUMP_PURPLE_FORCE : ℚ := -15
def ORB_JUMP_RED_FORCE : ℚ := -34
def MOVE_SPEED : ℚ := 9
def TERMINAL_VELOCITY : ℚ := 30
def ROTATION_SPEED : ℚ := 6
def CEILING_HEIGHT : ℚ := 12
def PORTAL_HEIGHT_BLOCKS : ℚ := 3

/-! ## Data model (src/geodash/types.ts) -/

structure Vector2 where
  x : ℚ
  y : ℚ
deriving DecidableEq, Repr

inductive EntityType where
  | PLAYER
  | BLOCK
  | SPIKE
  | HALF_SPIKE
  | ORB_JUMP
  | ORB_JUMP_PURPLE
  | ORB_JUMP_RED
  | ORB_GRAVITY
  | PORTAL_GRAVITY
  | PORTAL_SPEED_SLOW
  | PORTAL_SPEED_NORMAL
  | PORTAL_SPEED_FAST
  | PORTAL_SPEED_VERY_FAST
  | FLOOR
deriving DecidableEq, Repr

inductive GameMode where
  | CLASSIC
  | FREE
deriving DecidableEq, Repr

/-- A placed level entity; grid coordinates (`id` and `rotation` are omitted:
the simulation never reads them — collision ignores `rotation`). -/
structure LevelObject where
  type : EntityType
  x : ℚ
  y : ℚ
deriving DecidableEq, Repr

structure LevelData where
  objects : List LevelObject
  length : ℚ
  gameMode : GameMode
deriving DecidableEq, Repr

/-- Mutable player simulation state.  `lastPortalX` models the dynamically
attached `(player as any).lastPortalX` used by the gravity-portal cooldown. -/
structure Player where
  position : Vector2
  velocity : Vector2
  isGrounded : Bool
  isDead : Bool
  rotation : ℚ
  gravityScale : ℚ
  canOrbJump : Bool
  speedMultiplier : ℚ
  lastPortalX : Option ℚ
deriving DecidableEq, Repr

/-- The input latch (`inputRef`): `jump` is "held", `jumpPressedThisFrame`
is the one-shot press edge. -/
structure Input where
  jump : Bool
  jumpPressedThisFrame : Bool
deriving DecidableEq, Repr

/-- Events a tick emits, in invocation order: host callbacks and orb
activations (the latter so that activation counts can be stated). -/
inductive Event where
  | orbActivate (o : LevelObject)
  | onDie
  | onWin
  | onTestComplete (trail : List Vector2) (deathPos : Option Vector2)
deriving DecidableEq, Repr

/-- Per-run configuration: the level plus the `isProcedural`/`isTestMode`
props of `GameRunner`.  The host callbacks are modelled as events. -/
structure Config where
  level : LevelData
  isProcedural : Bool
  isTestMode : Bool
deriving DecidableEq, Repr

/-- The per-run mutable simulation state outside the player: elapsed time
(`timeRef`), the player, the input latch and the recorded editor-test trail. -/
structure SimState where
  time : ℚ
  player : Player
  input : Input
  recordedTrail : List Vector2
deriving DecidableEq, Repr

/-! ## JS arithmetic helpers -/

/-- JavaScript `Math.round`: round half towards +∞. -/
def jsRound (q : ℚ) : ℤ := ⌊q + 1/2⌋

/-- JavaScript `%` for a nonnegative dividend and positive divisor
(the only case the simulation uses: `timeRef.current` is nonnegative). -/
def jsMod (a b : ℚ) : ℚ := a - b * ⌊a / b⌋

/-! ## Geometry -/

structure Rect where
  x : ℚ
  y : ℚ
  w : ℚ
  h : ℚ
deriving DecidableEq, Repr

/-- Axis-aligned rectangle overlap (`checkCollision` in GameRunner). -/
def checkCollision (r1 r2 : Rect) : Bool :=
  decide (r1.x < r2.x + r2.w) && decide (r1.x + r1.w > r2.x) &&
  decide (r1.y < r2.y + r2.h) && decide (r1.y + r1.h > r2.y)

/-- The player's inset hitbox (`pRect`, lines 383–388): 10px inset from the
48px tile whose bottom edge is `position.y`. -/
def playerRect (p : Player) : Rect :=
  ⟨p.position.x + 10, p.position.y - TILE_SIZE + 10, TILE_SIZE - 20, TILE_SIZE - 20⟩

def isOrbType (t : EntityType) : Bool :=
  t == .ORB_JUMP || t == .ORB_GRAVITY || t == .ORB_JUMP_PURPLE || t == .ORB_JUMP_RED

def isPortalType (t : EntityType) : Bool :=
  t == .PORTAL_GRAVITY || t == .PORTAL_SPEED_SLOW || t == .PORTAL_SPEED_NORMAL ||
  t == .PORTAL_SPEED_FAST || t == .PORTAL_SPEED_VERY_FAST

/-! ## Simulation phases (GameRunner `update`, lines 277–592) -/

/-- Ground / stability check (lines 295–335): a grounded player with jump not
held keeps `isGrounded` only if supported by the floor/ceiling plane or by a
block top/underside within a 5px tolerance.  The loop-with-break over the
objects is an existence test, i.e. `List.any`. -/
def stabilityStep (mode : GameMode) (objs : List LevelObject) (inp : Input)
    (p : Player) : Player :=
  if p.isGrounded && !inp.jump then
    let planeOk : Bool :=
      if p.gravityScale = 1 then decide (p.position.y ≥ 0)
      else decide (mode ≠ GameMode.FREE) &&
        decide (p.position.y ≤ -(CEILING_HEIGHT * TILE_SIZE) + TILE_SIZE + 2)
    let pX := p.position.x + TILE_SIZE / 2
    let blockOk : Bool := objs.any fun o =>
      o.type == EntityType.BLOCK &&
      (let oX := o.x * TILE_SIZE
       let oY := -(o.y) * TILE_SIZE
       decide (pX > oX) && decide (pX < oX + TILE_SIZE) &&
       (if p.gravityScale = 1 then decide (|p.position.y - oY| < 5)
        else decide (|p.position.y - (oY + 2 * TILE_SIZE)| < 5)))
    if planeOk || blockOk then p else { p with isGrounded := false }
  else p

/-- Physics update (lines 337–358): gravity or grounded-zeroing, horizontal
speed reset, jump impulse, sign-aware terminal-velocity clamp. -/
def physicsStep (inp : Input) (p : Player) : Player :=
  let p :=
    if !p.isGrounded then
      { p with velocity.y := p.velocity.y + GRAVITY * p.gravityScale }
    else
      { p with velocity.y := 0 }
  let p := { p with velocity.x := MOVE_SPEED * p.speedMultiplier }
  let p :=
    if inp.jump && p.isGrounded then
      { p with velocity.y := JUMP_FORCE * p.gravityScale,
               isGrounded := false, canOrbJump := false }
    else p
  if p.gravityScale = 1 then
    if p.velocity.y > TERMINAL_VELOCITY then
      { p with velocity.y := TERMINAL_VELOCITY } else p
  else
    if p.velocity.y < -TERMINAL_VELOCITY then
      { p with velocity.y := -TERMINAL_VELOCITY } else p

/-- Horizontal advance and rotation (lines 360–367): tumble while airborne,
snap to the nearest multiple of 90° on the ground.  `rotation % 90 !== 0`
is "rotation/90 is not an integer". -/
def horizRotStep (p : Player) : Player :=
  let p := { p with position.x := p.position.x + p.velocity.x }
  if !p.isGrounded then
    { p with rotation := p.rotation + ROTATION_SPEED * p.gravityScale }
  else if (p.rotation / 90).den = 1 then p
  else { p with rotation := (jsRound (p.rotation / 90) : ℚ) * 90 }

/-- Player after stability, physics, horizontal move and rotation, with the
vertical position not yet advanced (the state at line 379). -/
def preMoveOf (mode : GameMode) (objs : List LevelObject) (inp : Input)
    (p : Player) : Player :=
  horizRotStep (physicsStep inp (stabilityStep mode objs inp p))

/-- `prevY` (line 380): the code computes it as the *pre-move* vertical
position minus the post-physics vertical velocity (an extrapolation one
velocity-step behind the pre-move position, not the true previous position). -/
def prevYOf (mode : GameMode) (objs : List LevelObject) (inp : Input)
    (p : Player) : ℚ :=
  p.position.y - (preMoveOf mode objs inp p).velocity.y

/-- Player after the vertical advance (line 381). -/
def movedOf (mode : GameMode) (objs : List LevelObject) (inp : Input)
    (p : Player) : Player :=
  let q := preMoveOf mode objs inp p
  { q with position.y := q.position.y + q.velocity.y }

/-- The death callback (lines 491–495 etc.): in test mode the recorder hands
over the trail and the death position, otherwise `onDie` fires. -/
def deathEvents (isTest : Bool) (trail : List Vector2) (pos : Vector2) :
    List Event :=
  if isTest then [.onTestComplete trail (some pos)] else [.onDie]

/-- The JS read `(player as any).lastPortalX || -1000` (line 462): both
`undefined` and `0` are falsy. -/
def portalLastX : Option ℚ → ℚ
  | none => -1000
  | some v => if v = 0 then -1000 else v

/-- Result of the object-collision loop (lines 393–527): either the loop ran
to completion or a lethal collision ended the tick early (the code `return`s,
skipping the floor/ceiling logic, the input-flag clear and the win check). -/
inductive LoopResult where
  | cont (p : Player) (inp : Input) (evts : List Event)
  | dead (p : Player) (inp : Input) (evts : List Event)
deriving DecidableEq, Repr

/-- Effect of an activated orb on the player (lines 423–436): a fixed impulse
scaled by the loop's captured gravity sign for the jump orbs; for the gravity
orb, a gravity flip followed by a half-strength jump impulse along the *new*
gravity scale (lines 433–434). -/
def orbEffect (gMult : ℚ) (t : EntityType) (p : Player) : Player :=
  if t == .ORB_JUMP then
    { p with velocity.y := ORB_JUMP_FORCE * gMult, isGrounded := false }
  else if t == .ORB_JUMP_PURPLE then
    { p with velocity.y := ORB_JUMP_PURPLE_FORCE * gMult, isGrounded := false }
  else if t == .ORB_JUMP_RED then
    { p with velocity.y := ORB_JUMP_RED_FORCE * gMult, isGrounded := false }
  else
    let g : ℚ := p.gravityScale * (-1)
    { p with gravityScale := g, velocity.y := JUMP_FORCE * (1/2) * g,
             isGrounded := false }

/-- Effect of an overlapped portal on the player (lines 454–468): speed
portals unconditionally set the multiplier; the gravity portal flips only
past the 2-tile re-entry cooldown and records the new flip x-position. -/
def portalEffect (t : EntityType) (p : Player) : Player :=
  let p1 :=
    if t == .PORTAL_SPEED_SLOW then { p with speedMultiplier := 4/5 }
    else if t == .PORTAL_SPEED_NORMAL then { p with speedMultiplier := 1 }
    else if t == .PORTAL_SPEED_FAST then { p with speedMultiplier := 6/5 }
    else if t == .PORTAL_SPEED_VERY_FAST then { p with speedMultiplier := 7/5 }
    else p
  if t == .PORTAL_GRAVITY then
    if |p1.position.x - portalLastX p1.lastPortalX| > TILE_SIZE * 2 then
      { p1 with gravityScale := p1.gravityScale * (-1 : ℚ),
                lastPortalX := some p1.position.x }
    else p1
  else p1

/-- Hitbox of a hazard or solid at `(objX, objY)` (lines 473–484): spikes are
inset 14px all around, half-spikes keep only the lower 20px band, everything
else (BLOCK, and the unused FLOOR/PLAYER kinds) is the full tile. -/
def solidHitbox (t : EntityType) (objX objY : ℚ) : Rect :=
  if t == .SPIKE then
    ⟨objX + 14, objY + 14, TILE_SIZE - 28, TILE_SIZE - 28⟩
  else if t == .HALF_SPIKE then
    ⟨objX + 14, objY + 28, TILE_SIZE - 28, TILE_SIZE - 28⟩
  else ⟨objX, objY, TILE_SIZE, TILE_SIZE⟩

/-- The object-collision loop (lines 393–527).  `gMult` and `prevY` are the
values captured before the loop (`gravityMult` is read once at line 280 and
is *not* refreshed when an orb or portal flips `gravityScale` mid-tick);
`pCX`, `pCY` and `pRect` are the player centre/hitbox computed once at lines
383–391 and *not* recomputed after a block landing snaps the position. -/
def runObjects (isTest : Bool) (trail : List Vector2) (gMult prevY pCX pCY : ℚ)
    (pRect : Rect) :
    List LevelObject → Player → Input → List Event → LoopResult
  | [], p, i, acc => .cont p i acc
  | o :: rest, p, i, acc =>
    let objX := o.x * TILE_SIZE
    let objY := -(o.y) * TILE_SIZE
    if isOrbType o.type then
      -- Orbs (lines 399–439).  `dist < 32` is squared (exact on ℚ).
      let dx := pCX - (objX + TILE_SIZE / 2)
      let dy := pCY - (objY + TILE_SIZE / 2)
      let active := i.jumpPressedThisFrame || (i.jump && p.canOrbJump)
      if decide (dx * dx + dy * dy < 32 * 32) && active && p.canOrbJump then
        let p2 := orbEffect gMult o.type { p with canOrbJump := false }
        let i1 := { i with jumpPressedThisFrame := false }
        runObjects isTest trail gMult prevY pCX pCY pRect rest p2 i1
          (acc ++ [.orbActivate o])
      else
        runObjects isTest trail gMult prevY pCX pCY pRect rest p i acc
    else if isPortalType o.type then
      -- Portals (lines 441–471): a 3-tile-tall 18px-wide strip.
      let portalTop := objY - (PORTAL_HEIGHT_BLOCKS - 1) * TILE_SIZE
      let portalH := PORTAL_HEIGHT_BLOCKS * TILE_SIZE
      if checkCollision pRect ⟨objX + 15, portalTop, 18, portalH⟩ then
        runObjects isTest trail gMult prevY pCX pCY pRect rest
          (portalEffect o.type p) i acc
      else
        runObjects isTest trail gMult prevY pCX pCY pRect rest p i acc
    else
      -- Hazards and solids (lines 473–526).
      if checkCollision pRect (solidHitbox o.type objX objY) then
        if o.type == .SPIKE || o.type == .HALF_SPIKE then
          .dead { p with isDead := true } i
            (acc ++ deathEvents isTest trail p.position)
        else if o.type == .BLOCK then
          if gMult = 1 then
            if p.velocity.y ≥ 0 ∧ prevY ≤ objY + 15 then
              let p1 := { p with position.y := objY, velocity.y := 0,
                                 isGrounded := true }
              runObjects isTest trail gMult prevY pCX pCY pRect rest p1 i acc
            else
              .dead { p with isDead := true } i
                (acc ++ deathEvents isTest trail p.position)
          else
            let blockBottom := objY + TILE_SIZE
            if p.velocity.y ≤ 0 ∧ prevY - TILE_SIZE ≥ blockBottom - 15 then
              let p1 := { p with position.y := blockBottom + TILE_SIZE,
                                 velocity.y := 0, isGrounded := true }
              runObjects isTest trail gMult prevY pCX pCY pRect rest p1 i acc
            else
              .dead { p with isDead := true } i
                (acc ++ deathEvents isTest trail p.position)
        else
          -- FLOOR / PLAYER: a full-tile overlap has no effect.
          runObjects isTest trail gMult prevY pCX pCY pRect rest p i acc
      else
        runObjects isTest trail gMult prevY pCX pCY pRect rest p i acc

/-- Floor / ceiling containment (lines 529–557), using the stale `gMult`:
floor clamp under normal gravity; under inverted gravity either the FREE-mode
out-of-bounds death band (which does *not* end the tick early) or the CLASSIC
ceiling clamp. -/
def floorStep (mode : GameMode) (isTest : Bool) (gMult : ℚ)
    (trail : List Vector2) (p : Player) : Player × List Event :=
  if p.isDead then (p, [])
  else if gMult = 1 then
    if p.position.y ≥ 0 then
      ({ p with position.y := 0, velocity.y := 0, isGrounded := true }, [])
    else (p, [])
  else if mode = GameMode.FREE then
    if p.position.y < -3000 ∨ p.position.y > 1000 then
      ({ p with isDead := true }, deathEvents isTest trail p.position)
    else (p, [])
  else
    let ceilY := -(CEILING_HEIGHT * TILE_SIZE)
    if p.position.y - TILE_SIZE ≤ ceilY then
      ({ p with position.y := ceilY + TILE_SIZE, velocity.y := 0,
                isGrounded := true }, [])
    else (p, [])

/-- Win check (lines 578–584): non-procedural runs past the finish line emit
the win (or test-completion-without-death) callback.  There is no guard on
`isDead`, so this runs even on a FREE-mode out-of-bounds death tick. -/
def winStep (isProc isTest : Bool) (len : ℚ) (trail : List Vector2)
    (p : Player) : List Event :=
  if !isProc && decide (p.position.x > len * TILE_SIZE) then
    if isTest then [.onTestComplete trail none] else [.onWin]
  else []

/-- Editor-test trail sampling (lines 290–293), using the already-incremented
time. -/
def sampleTrail (isTest : Bool) (time' : ℚ) (p : Player)
    (trail : List Vector2) : List Vector2 :=
  if isTest && !p.isDead && decide (jsMod time' (1/10) < 1/20) then
    trail ++ [p.position]
  else trail

/-- The recorder trail as of this tick. -/
def trailOf (cfg : Config) (s : SimState) : List Vector2 :=
  sampleTrail cfg.isTestMode (s.time + 1/20) s.player s.recordedTrail

/-- The object-collision loop as invoked by this tick. -/
def tickLoopOf (cfg : Config) (s : SimState) : LoopResult :=
  let p1 := movedOf cfg.level.gameMode cfg.level.objects s.input s.player
  runObjects cfg.isTestMode (trailOf cfg s) s.player.gravityScale
    (prevYOf cfg.level.gameMode cfg.level.objects s.input s.player)
    (p1.position.x + TILE_SIZE / 2) (p1.position.y - TILE_SIZE / 2)
    (playerRect p1) cfg.level.objects p1 s.input []

/-- One simulation tick (`update`, lines 277–592).  A dead player's tick is a
no-op apart from the time advance (line 285).  A lethal collision ends the
tick early; otherwise floor/ceiling logic runs, the one-shot press flag is
cleared, and the win check fires. -/
def update (cfg : Config) (s : SimState) : SimState × List Event :=
  let time' := s.time + 1/20
  if s.player.isDead then ({ s with time := time' }, [])
  else
    let trail' := trailOf cfg s
    match tickLoopOf cfg s with
    | .dead p2 i2 evts =>
      ({ time := time', player := p2, input := i2, recordedTrail := trail' }, evts)
    | .cont p2 i2 evts =>
      let fr := floorStep cfg.level.gameMode cfg.isTestMode
        s.player.gravityScale trail' p2
      let i3 := { i2 with jumpPressedThisFrame := false }
      let wevts := winStep cfg.isProcedural cfg.isTestMode cfg.level.length
        trail' fr.1
      ({ time := time', player := fr.1, input := i3, recordedTrail := trail' },
       evts ++ fr.2 ++ wevts)

/-- Iterate `n` ticks, discarding events. -/
def runTicks (cfg : Config) : ℕ → SimState → SimState
  | 0, s => s
  | n + 1, s => runTicks cfg n (update cfg s).1

/-- The freshly reset player of a new run (lines 89–98). -/
def initPlayer : Player :=
  { position := ⟨0, 0⟩, velocity := ⟨MOVE_SPEED, 0⟩, isGrounded := true,
    isDead := false, rotation := 0, gravityScale := 1, canOrbJump := true,
    speedMultiplier := 1, lastPortalX := none }

/-- A freshly reset run with no input held. -/
def initState : SimState :=
  { time := 0, player := initPlayer, input := ⟨false, false⟩,
    recordedTrail := [] }

/-! ## Event helpers -/

/-- Host-callback events (as opposed to orb-activation bookkeeping). -/
def isCallbackEvent : Event → Bool
  | .orbActivate _ => false
  | _ => true

def callbackEvents (es : List Event) : List Event := es.filter isCallbackEvent

def isOrbEvent : Event → Bool
  | .orbActivate _ => true
  | _ => false

/-- Number of orb activations among a tick's events. -/
def orbCount (es : List Event) : ℕ := (es.filter isOrbEvent).length

/-- A run, as the host drives it: tick until the first tick that emits a
host callback, then stop (`App` reacts to the first `onDie` / `onWin` /
`onTestComplete` by unmounting the runner, which cancels the animation
loop; orb-activation events are internal to the simulation and invisible
to the host, so they do not end the run).  Returns the state after, and
the events of, that terminal tick (`[]` if the fuel runs out first). -/
def runToCallback (cfg : Config) : ℕ → SimState → SimState × List Event
  | 0, s => (s, [])
  | n + 1, s =>
    let r := update cfg s
    if callbackEvents r.2 = [] then runToCallback cfg n r.1 else r

/-! ## Field-preservation lemmas for the pre-collision phases -/

lemma stabilityStep_isDead (m : GameMode) (os : List LevelObject) (i : Input)
    (p : Player) : (stabilityStep m os i p).isDead = p.isDead := by
  unfold stabilityStep; dsimp only; split_ifs <;> rfl

lemma physicsStep_isDead (i : Input) (p : Player) :
    (physicsStep i p).isDead = p.isDead := by
  unfold physicsStep; dsimp only; split_ifs <;> rfl

lemma horizRotStep_isDead (p : Player) : (horizRotStep p).isDead = p.isDead := by
  unfold horizRotStep; dsimp only; split_ifs <;> rfl

lemma movedOf_isDead (m : GameMode) (os : List LevelObject) (i : Input)
    (p : Player) : (movedOf m os i p).isDead = p.isDead := by
  unfold movedOf preMoveOf
  simp [horizRotStep_isDead, physicsStep_isDead, stabilityStep_isDead]

lemma stabilityStep_gravityScale (m : GameMode) (os : List LevelObject)
    (i : Input) (p : Player) :
    (stabilityStep m os i p).gravityScale = p.gravityScale := by
  unfold stabilityStep; dsimp only; split_ifs <;> rfl

lemma physicsStep_gravityScale (i : Input) (p : Player) :
    (physicsStep i p).gravityScale = p.gravityScale := by
  unfold physicsStep; dsimp only; split_ifs <;> rfl

lemma horizRotStep_gravityScale (p : Player) :
    (horizRotStep p).gravityScale = p.gravityScale := by
  unfold horizRotStep; dsimp only; split_ifs <;> rfl

lemma movedOf_gravityScale (m : GameMode) (os : List LevelObject) (i : Input)
    (p : Player) : (movedOf m os i p).gravityScale = p.gravityScale := by
  unfold movedOf preMoveOf
  simp [horizRotStep_gravityScale, physicsStep_gravityScale,
    stabilityStep_gravityScale]

lemma stabilityStep_lastPortalX (m : GameMode) (os : List LevelObject)
    (i : Input) (p : Player) :
    (stabilityStep m os i p).lastPortalX = p.lastPortalX := by
  unfold stabilityStep; dsimp only; split_ifs <;> rfl

lemma physicsStep_lastPortalX (i : Input) (p : Player) :
    (physicsStep i p).lastPortalX = p.lastPortalX := by
  unfold physicsStep; dsimp only; split_ifs <;> rfl

lemma horizRotStep_lastPortalX (p : Player) :
    (horizRotStep p).lastPortalX = p.lastPortalX := by
  unfold horizRotStep; dsimp only; split_ifs <;> rfl

lemma movedOf_lastPortalX (m : GameMode) (os : List LevelObject) (i : Input)
    (p : Player) : (movedOf m os i p).lastPortalX = p.lastPortalX := by
  unfold movedOf preMoveOf
  simp [horizRotStep_lastPortalX, physicsStep_lastPortalX,
    stabilityStep_lastPortalX]

/-! ## Common tick lemmas -/

lemma update_dead (cfg : Config) (s : SimState) (h : s.player.isDead = true) :
    (update cfg s).1 = { s with time := s.time + 1/20 } := by
  unfold update; rw [h]; rfl

/-- Reduction of `update` when the collision loop survives. -/
lemma update_cont (cfg : Config) (s : SimState)
    (halive : s.player.isDead = false) (p2 : Player) (i2 : Input)
    (evts : List Event) (h : tickLoopOf cfg s = .cont p2 i2 evts) :
    update cfg s =
      ({ time := s.time + 1/20,
         player := (floorStep cfg.level.gameMode cfg.isTestMode
           s.player.gravityScale (trailOf cfg s) p2).1,
         input := { i2 with jumpPressedThisFrame := false },
         recordedTrail := trailOf cfg s },
       evts ++ (floorStep cfg.level.gameMode cfg.isTestMode
           s.player.gravityScale (trailOf cfg s) p2).2
         ++ winStep cfg.isProcedural cfg.isTestMode cfg.level.length
             (trailOf cfg s)
             (floorStep cfg.level.gameMode cfg.isTestMode
               s.player.gravityScale (trailOf cfg s) p2).1) := by
  unfold update
  rw [halive, h]
  rfl

/-- Reduction of `update` when the collision loop ends in a lethal collision:
the tick returns early (no floor logic, no input-flag clear, no win check). -/
lemma update_deadloop (cfg : Config) (s : SimState)
    (halive : s.player.isDead = false) (p2 : Player) (i2 : Input)
    (evts : List Event) (h : tickLoopOf cfg s = .dead p2 i2 evts) :
    update cfg s =
      ({ time := s.time + 1/20, player := p2, input := i2,
         recordedTrail := trailOf cfg s }, evts) := by
  unfold update
  rw [halive, h]
  rfl

/-! ## C9: `isDead` is terminal -/

/-- C9: `isDead` is a one-way terminal transition: once a player state has
`isDead = true`, every subsequent simulation tick leaves every `Player` field
(position, velocity, grounded flag, rotation, gravity scale, orb lock, speed
multiplier, portal cooldown) unchanged. -/
theorem claim_C9_isDead_terminal (cfg : Config) (s : SimState)
    (h : s.player.isDead = true) (n : ℕ) :
    (runTicks cfg n s).player = s.player := by
  induction n generalizing s with
  | zero => rfl
  | succ n ih =>
    show (runTicks cfg n (update cfg s).1).player = s.player
    rw [update_dead cfg s h]
    exact ih { s with time := s.time + 1/20 } h

def deadPlayer : Player := { initPlayer with isDead := true }

def deadState : SimState :=
  { time := 0, player := deadPlayer, input := ⟨false, false⟩, recordedTrail := [] }

def classicEmptyCfg : Config := ⟨⟨[], 200, .CLASSIC⟩, false, false⟩

/-- Witness for C9 at a concrete dead state and level. -/
theorem claim_C9_witness :
    deadState.player.isDead = true ∧
    (runTicks classicEmptyCfg 3 deadState).player = deadState.player :=
  ⟨rfl, claim_C9_isDead_terminal classicEmptyCfg deadState rfl 3⟩

/-! ## C2: FREE-mode out-of-bounds -/

/-- A FREE-mode empty level used to isolate the floor/ceiling logic. -/
def freeEmptyCfg (len : ℚ) : Config := ⟨⟨[], len, .FREE⟩, false, false⟩

def oobTestP1 : Player :=
  { position := ⟨0, 1001⟩, velocity := ⟨9, 0⟩, isGrounded := false,
    isDead := false, rotation := 0, gravityScale := 1, canOrbJump := true,
    speedMultiplier := 1, lastPortalX := none }

def oobTestP2 : Player := { oobTestP1 with gravityScale := -1, velocity := ⟨9, -12⟩ }

def oobTestP3 : Player := { oobTestP1 with position := ⟨0, -3001⟩ }

def oobTestState (p : Player) : SimState :=
  { time := 0, player := p, input := ⟨false, false⟩, recordedTrail := [] }

/-- Counterexample to C2: in FREE mode the out-of-bounds band is only checked
when the tick-start gravity sign is `-1`, and on the *post-move* position.  A
player at `y = 1001` under normal gravity is not killed (it is clamped back to
the floor, `y = 0`); a player at `y = -3001` under normal gravity survives;
and even with `gravityScale = -1` a player at `y = 1001` moving upward
(velocity `-12`) survives, because the position checked is the post-move one.
So "marked dead on the next tick regardless of velocity, grounded state, or
gravity sign" is false. -/
theorem claim_C2_counterexample :
    (update (freeEmptyCfg 100000) (oobTestState oobTestP1)).1.player.isDead = false ∧
    (update (freeEmptyCfg 100000) (oobTestState oobTestP1)).1.player.position.y = 0 ∧
    (update (freeEmptyCfg 100000) (oobTestState oobTestP3)).1.player.isDead = false ∧
    (update (freeEmptyCfg 100000) (oobTestState oobTestP2)).1.player.isDead = false :=
  ⟨by with_unfolding_all rfl, by with_unfolding_all rfl,
   by with_unfolding_all rfl, by with_unfolding_all rfl⟩

/-- C2 (amended): in FREE mode (on a level with no objects), on a tick whose
start gravity sign is `-1` the player is marked dead exactly when the
*post-integration* position lies in the out-of-bounds band
(`y < -3000` or `y > 1000`); on a tick whose start gravity sign is `+1` the
floor clamp applies instead and no out-of-bounds death occurs. -/
theorem claim_C2_amended (s : SimState) (len : ℚ)
    (halive : s.player.isDead = false) :
    (s.player.gravityScale = -1 →
      ((update (freeEmptyCfg len) s).1.player.isDead = true ↔
        ((movedOf .FREE [] s.input s.player).position.y < -3000 ∨
         (movedOf .FREE [] s.input s.player).position.y > 1000))) ∧
    (s.player.gravityScale = 1 →
      (update (freeEmptyCfg len) s).1.player.isDead = false) := by
  have hloop : tickLoopOf (freeEmptyCfg len) s =
      .cont (movedOf .FREE [] s.input s.player) s.input [] := rfl
  have hup := update_cont (freeEmptyCfg len) s halive _ _ _ hloop
  rw [Prod.ext_iff] at hup
  have hpl : (update (freeEmptyCfg len) s).1.player =
      (floorStep GameMode.FREE false s.player.gravityScale
        (trailOf (freeEmptyCfg len) s) (movedOf .FREE [] s.input s.player)).1 := by
    rw [hup.1]
    rfl
  set q := movedOf .FREE [] s.input s.player with hq
  have hqdead : q.isDead = false := by
    rw [hq, movedOf_isDead]; exact halive
  constructor
  · intro hg
    rw [hpl]
    unfold floorStep
    rw [hqdead, hg]
    norm_num
    split_ifs with hoob <;> simp [hoob, hqdead]
  · intro hg
    rw [hpl]
    unfold floorStep
    rw [hqdead, hg]
    simp only [if_true, Bool.false_eq_true, if_false, reduceIte]
    split_ifs <;> simp [hqdead]

def oobWitnessState : SimState :=
  oobTestState { oobTestP1 with position := ⟨0, -3001⟩, gravityScale := -1 }

/-- Witness for the amended C2: a player at `y = -3001` with inverted gravity
and zero vertical velocity moves to `y = -3003` and is marked dead. -/
theorem claim_C2_witness :
    (update (freeEmptyCfg 100) oobWitnessState).1.player.isDead = true :=
  ((claim_C2_amended oobWitnessState 100 rfl).1 rfl).mpr
    (Or.inl (of_decide_eq_true (by with_unfolding_all rfl)))

/-! ## C10: the HALF_SPIKE lethal hitbox -/

/-- The lethal rectangle of a `HALF_SPIKE` at grid tile `(gx, gy)` as computed
by the collision loop: inset 14px from each side, lower 20px of the tile. -/
def halfSpikeHitbox (gx gy : ℚ) : Rect :=
  ⟨gx * TILE_SIZE + 14, -(gy) * TILE_SIZE + 28, TILE_SIZE - 28, TILE_SIZE - 28⟩

lemma runObjects_single_halfspike (isTest : Bool) (trail : List Vector2)
    (g prevY cx cy : ℚ) (r : Rect) (gx gy : ℚ) (p : Player) (i : Input) :
    runObjects isTest trail g prevY cx cy r [⟨.HALF_SPIKE, gx, gy⟩] p i [] =
      if checkCollision r (halfSpikeHitbox gx gy) then
        .dead { p with isDead := true } i (deathEvents isTest trail p.position)
      else .cont p i [] := by
  unfold runObjects halfSpikeHitbox
  simp [runObjects, isOrbType, isPortalType, solidHitbox]

lemma floorStep_classic_isDead (isTest : Bool) (g : ℚ) (trail : List Vector2)
    (p : Player) :
    (floorStep .CLASSIC isTest g trail p).1.isDead = p.isDead := by
  unfold floorStep
  dsimp only
  split_ifs <;> (try rfl) <;> simp_all

def halfSpikeCfg (gx gy len : ℚ) : Config :=
  ⟨⟨[⟨.HALF_SPIKE, gx, gy⟩], len, .CLASSIC⟩, false, false⟩

/-- C10: on a CLASSIC level whose single object is a `HALF_SPIKE` at tile
`(gx, gy)`, a tick kills the player exactly when the player's inset hitbox
(after this tick's movement) overlaps the rectangle with top-left corner
`(48*gx + 14, -48*gy + 28)` and size 20×20 — i.e. the rectangle inset 14px
from each side horizontally and covering only the bottom 20px of the tile. -/
theorem claim_C10_halfspike_hitbox (gx gy len : ℚ) (s : SimState)
    (halive : s.player.isDead = false) :
    ((update (halfSpikeCfg gx gy len) s).1.player.isDead = true) ↔
      checkCollision
        (playerRect (movedOf .CLASSIC [⟨.HALF_SPIKE, gx, gy⟩] s.input s.player))
        (halfSpikeHitbox gx gy) = true := by
  have hloop : tickLoopOf (halfSpikeCfg gx gy len) s =
      (if checkCollision
          (playerRect (movedOf .CLASSIC [⟨.HALF_SPIKE, gx, gy⟩] s.input s.player))
          (halfSpikeHitbox gx gy) then
        .dead { movedOf .CLASSIC [⟨.HALF_SPIKE, gx, gy⟩] s.input s.player with
                  isDead := true } s.input
          (deathEvents false (trailOf (halfSpikeCfg gx gy len) s)
            (movedOf .CLASSIC [⟨.HALF_SPIKE, gx, gy⟩] s.input s.player).position)
      else .cont (movedOf .CLASSIC [⟨.HALF_SPIKE, gx, gy⟩] s.input s.player)
        s.input []) :=
    runObjects_single_halfspike _ _ _ _ _ _ _ _ _ _ _
  by_cases hc : checkCollision
      (playerRect (movedOf .CLASSIC [⟨.HALF_SPIKE, gx, gy⟩] s.input s.player))
      (halfSpikeHitbox gx gy) = true
  · rw [if_pos hc] at hloop
    rw [update_deadloop _ _ halive _ _ _ hloop]
    simp [hc]
  · rw [if_neg hc] at hloop
    rw [update_cont _ _ halive _ _ _ hloop]
    have : (halfSpikeCfg gx gy len).level.gameMode = .CLASSIC := rfl
    rw [this]
    simp only [floorStep_classic_isDead, movedOf_isDead, halive]
    simp [hc]

def hsWitnessState : SimState :=
  { time := 0, player := { initPlayer with position := ⟨43, 0⟩ },
    input := ⟨false, false⟩, recordedTrail := [] }

/-- Witness for C10: a grounded player whose hitbox slides into the lower
20px band of a half-spike dies on that tick. -/
theorem claim_C10_witness :
    (update (halfSpikeCfg 1 1 100) hsWitnessState).1.player.isDead = true :=
  (claim_C10_halfspike_hitbox 1 1 100 hsWitnessState rfl).mpr
    (by with_unfolding_all rfl)

/-! ## C5: the gravity portal re-entry cooldown -/

lemma floorStep_gravityScale (m : GameMode) (isTest : Bool) (g : ℚ)
    (trail : List Vector2) (p : Player) :
    (floorStep m isTest g trail p).1.gravityScale = p.gravityScale := by
  unfold floorStep; dsimp only; split_ifs <;> rfl

lemma floorStep_lastPortalX (m : GameMode) (isTest : Bool) (g : ℚ)
    (trail : List Vector2) (p : Player) :
    (floorStep m isTest g trail p).1.lastPortalX = p.lastPortalX := by
  unfold floorStep; dsimp only; split_ifs <;> rfl

lemma floorStep_canOrbJump (m : GameMode) (isTest : Bool) (g : ℚ)
    (trail : List Vector2) (p : Player) :
    (floorStep m isTest g trail p).1.canOrbJump = p.canOrbJump := by
  unfold floorStep; dsimp only; split_ifs <;> rfl

def gravPortalObj (gx gy : ℚ) : LevelObject := ⟨.PORTAL_GRAVITY, gx, gy⟩

/-- The gravity portal's trigger strip at tile `(gx, gy)`: 18px wide, inset
15px from the tile's left edge, spanning 3 tiles upward. -/
def portalStrip (gx gy : ℚ) : Rect :=
  ⟨gx * TILE_SIZE + 15,
   -(gy) * TILE_SIZE - (PORTAL_HEIGHT_BLOCKS - 1) * TILE_SIZE, 18,
   PORTAL_HEIGHT_BLOCKS * TILE_SIZE⟩

lemma runObjects_single_gravportal (isTest : Bool) (trail : List Vector2)
    (g prevY cx cy : ℚ) (r : Rect) (gx gy : ℚ) (p : Player) (i : Input) :
    runObjects isTest trail g prevY cx cy r [gravPortalObj gx gy] p i [] =
      if checkCollision r (portalStrip gx gy) then
        if |p.position.x - portalLastX p.lastPortalX| > TILE_SIZE * 2 then
          .cont { p with gravityScale := p.gravityScale * (-1),
                         lastPortalX := some p.position.x } i []
        else .cont p i []
      else .cont p i [] := by
  unfold runObjects gravPortalObj portalStrip
  simp [runObjects, isOrbType, isPortalType, portalEffect]
  split_ifs <;> rfl

def gravPortalCfg (gx gy len : ℚ) (mode : GameMode) : Config :=
  ⟨⟨[gravPortalObj gx gy], len, mode⟩, false, false⟩

/-- C5: on a level whose single object is a gravity portal at `(gx, gy)`, on
every tick where the player's inset hitbox (post-move) overlaps the portal's
trigger strip, the gravity sign flips if and only if the player's current
x-position differs from the recorded last-flip x-position by more than 2
tiles (96px), in which case the new flip x-position (the post-move x) is
recorded; otherwise both `gravityScale` and the recorded position are
unchanged.  With no prior flip recorded, the first overlap always flips (the
code substitutes `-1000` for a missing record, and the player's x-position
exceeds `-904`).  Hypotheses: the recorded flip position, if any, is nonzero
(the JS read `lastPortalX || -1000` treats a recorded `0` like a missing
record; in an actual run every recorded position is a strictly positive
post-move x-position, so this always holds), and `gravityScale` is `±1`. -/
theorem claim_C5_gravity_portal (gx gy len : ℚ) (mode : GameMode)
    (s : SimState) (halive : s.player.isDead = false)
    (hg : s.player.gravityScale = 1 ∨ s.player.gravityScale = -1)
    (hlast : s.player.lastPortalX = none ∨
      ∃ v, s.player.lastPortalX = some v ∧ v ≠ 0)
    (hx : (movedOf mode [gravPortalObj gx gy] s.input s.player).position.x > -904)
    (hoverlap : checkCollision
      (playerRect (movedOf mode [gravPortalObj gx gy] s.input s.player))
      (portalStrip gx gy) = true) :
    (((update (gravPortalCfg gx gy len mode) s).1.player.gravityScale =
        -(s.player.gravityScale) ∧
      (update (gravPortalCfg gx gy len mode) s).1.player.lastPortalX =
        some (movedOf mode [gravPortalObj gx gy] s.input s.player).position.x)
     ↔ |(movedOf mode [gravPortalObj gx gy] s.input s.player).position.x -
          portalLastX s.player.lastPortalX| > TILE_SIZE * 2) ∧
    (¬(|(movedOf mode [gravPortalObj gx gy] s.input s.player).position.x -
          portalLastX s.player.lastPortalX| > TILE_SIZE * 2) →
      ((update (gravPortalCfg gx gy len mode) s).1.player.gravityScale =
        s.player.gravityScale ∧
       (update (gravPortalCfg gx gy len mode) s).1.player.lastPortalX =
        s.player.lastPortalX)) ∧
    (s.player.lastPortalX = none →
      (update (gravPortalCfg gx gy len mode) s).1.player.gravityScale =
        -(s.player.gravityScale)) := by
  set q := movedOf mode [gravPortalObj gx gy] s.input s.player with hq
  have hqlast : q.lastPortalX = s.player.lastPortalX := by
    rw [hq]; exact movedOf_lastPortalX _ _ _ _
  have hqg : q.gravityScale = s.player.gravityScale := by
    rw [hq]; exact movedOf_gravityScale _ _ _ _
  have hgnz : s.player.gravityScale ≠ 0 := by
    rcases hg with h | h <;> rw [h] <;> norm_num
  have hloop := runObjects_single_gravportal false
    (trailOf (gravPortalCfg gx gy len mode) s) s.player.gravityScale
    (prevYOf mode [gravPortalObj gx gy] s.input s.player)
    (q.position.x + TILE_SIZE / 2) (q.position.y - TILE_SIZE / 2)
    (playerRect q) gx gy q s.input
  rw [if_pos hoverlap, hqlast] at hloop
  by_cases hcool :
      |q.position.x - portalLastX s.player.lastPortalX| > TILE_SIZE * 2
  · rw [if_pos hcool] at hloop
    have hup := update_cont (gravPortalCfg gx gy len mode) s halive _ _ _ hloop
    have hpl : (update (gravPortalCfg gx gy len mode) s).1.player =
        (floorStep mode false s.player.gravityScale
          (trailOf (gravPortalCfg gx gy len mode) s)
          { q with gravityScale := q.gravityScale * (-1),
                   lastPortalX := some q.position.x }).1 := by
      rw [hup]
      rfl
    rw [hpl, floorStep_gravityScale, floorStep_lastPortalX]
    dsimp only
    simp only [hqg]
    refine ⟨⟨fun _ => hcool, fun _ => ⟨by ring, by simp⟩⟩,
      fun hn => absurd hcool hn, fun _ => by ring⟩
  · rw [if_neg hcool] at hloop
    have hup := update_cont (gravPortalCfg gx gy len mode) s halive _ _ _ hloop
    have hpl : (update (gravPortalCfg gx gy len mode) s).1.player =
        (floorStep mode false s.player.gravityScale
          (trailOf (gravPortalCfg gx gy len mode) s) q).1 := by
      rw [hup]
      rfl
    rw [hpl, floorStep_gravityScale, floorStep_lastPortalX]
    refine ⟨⟨fun hfl => ?_, fun hc => absurd hc hcool⟩,
      fun _ => ⟨hqg, hqlast⟩, fun hnone => ?_⟩
    · exfalso
      have h1 := hfl.1
      rw [hqg] at h1
      have : s.player.gravityScale = 0 := by linarith
      exact hgnz this
    · exfalso
      apply hcool
      rw [hnone]
      unfold portalLastX
      have habs : |q.position.x - -1000| = q.position.x + 1000 := by
        rw [abs_of_pos] <;> [skip; linarith]
        ring
      rw [habs]
      unfold TILE_SIZE
      linarith

def c5WitnessState : SimState :=
  { time := 0, player := { initPlayer with position := ⟨30, 0⟩ },
    input := ⟨false, false⟩, recordedTrail := [] }

/-- Witness for C5: a player with no recorded flip running into the portal
strip gets its gravity flipped on the first overlap. -/
theorem claim_C5_witness :
    (update (gravPortalCfg 1 1 100 .CLASSIC) c5WitnessState).1.player.gravityScale =
      -(c5WitnessState.player.gravityScale) :=
  (claim_C5_gravity_portal 1 1 100 .CLASSIC c5WitnessState rfl (Or.inl rfl)
    (Or.inl rfl) (of_decide_eq_true (by with_unfolding_all rfl))
    (by with_unfolding_all rfl)).2.2 rfl

/-! ## C6: clearing the one-shot press flag -/

def spikeCfg (gx gy len : ℚ) : Config :=
  ⟨⟨[⟨.SPIKE, gx, gy⟩], len, .CLASSIC⟩, false, false⟩

def c6DeathState : SimState :=
  { time := 0,
    player := { initPlayer with position := ⟨45, -20⟩, isGrounded := false },
    input := ⟨true, true⟩, recordedTrail := [] }

/-- Counterexample to C6: on a tick that ends in a lethal spike collision the
code `return`s before line 559, so the one-shot `jumpPressedThisFrame` flag
is *not* cleared: here a tick with the flag set ends with outcome DIED and
the flag still set.  So "false at the end of the tick regardless of the
tick's outcome (NONE, DIED, or WON)" is false. -/
theorem claim_C6_counterexample :
    c6DeathState.input.jumpPressedThisFrame = true ∧
    (update (spikeCfg 1 1 100) c6DeathState).1.player.isDead = true ∧
    (update (spikeCfg 1 1 100) c6DeathState).1.input.jumpPressedThisFrame = true :=
  ⟨rfl, by with_unfolding_all rfl, by with_unfolding_all rfl⟩

/-- C6 (amended): on every tick executed with the player alive, the one-shot
`jumpPressedThisFrame` flag is false at the end of the tick *provided the
collision loop did not end the tick in a lethal collision* (this covers the
outcomes NONE, WON, and the FREE-mode out-of-bounds DIED); on a tick ended
early by a lethal spike/half-spike or failed block landing, the flag keeps
whatever value it had at the point of death (it may remain true). -/
theorem claim_C6_pressed_cleared (cfg : Config) (s : SimState)
    (halive : s.player.isDead = false) :
    (∀ p i e, tickLoopOf cfg s = .cont p i e →
      (update cfg s).1.input.jumpPressedThisFrame = false) ∧
    (∀ p i e, tickLoopOf cfg s = .dead p i e →
      (update cfg s).1.input.jumpPressedThisFrame = i.jumpPressedThisFrame) := by
  constructor
  · intro p i e h
    rw [update_cont cfg s halive p i e h]
  · intro p i e h
    rw [update_deadloop cfg s halive p i e h]

/-- Witness for the amended C6: a surviving tick clears the flag. -/
theorem claim_C6_witness :
    (update classicEmptyCfg
      { time := 0, player := initPlayer, input := ⟨true, true⟩,
        recordedTrail := [] }).1.input.jumpPressedThisFrame = false :=
  (claim_C6_pressed_cleared classicEmptyCfg _ rfl).1 _ _ _ rfl

/-! ## C3: block landing and tunneling prevention -/

lemma stabilityStep_position (m : GameMode) (os : List LevelObject) (i : Input)
    (p : Player) : (stabilityStep m os i p).position = p.position := by
  unfold stabilityStep; dsimp only; split_ifs <;> rfl

lemma physicsStep_position (i : Input) (p : Player) :
    (physicsStep i p).position = p.position := by
  unfold physicsStep; dsimp only; split_ifs <;> rfl

lemma horizRotStep_position_y (p : Player) :
    (horizRotStep p).position.y = p.position.y := by
  unfold horizRotStep; dsimp only; split_ifs <;> rfl

lemma preMoveOf_position_y (m : GameMode) (os : List LevelObject) (i : Input)
    (p : Player) : (preMoveOf m os i p).position.y = p.position.y := by
  unfold preMoveOf
  rw [horizRotStep_position_y, physicsStep_position, stabilityStep_position]

lemma movedOf_velocity (m : GameMode) (os : List LevelObject) (i : Input)
    (p : Player) : (movedOf m os i p).velocity = (preMoveOf m os i p).velocity :=
  rfl

/-- The post-move vertical position is the pre-tick one plus the post-physics
vertical velocity. -/
lemma movedOf_position_y (m : GameMode) (os : List LevelObject) (i : Input)
    (p : Player) : (movedOf m os i p).position.y =
      p.position.y + (movedOf m os i p).velocity.y := by
  unfold movedOf
  dsimp only
  rw [preMoveOf_position_y]

/-- The code's `prevY` is the pre-tick vertical position *minus* the
post-physics vertical velocity (not the pre-tick position itself). -/
lemma prevYOf_eq (m : GameMode) (os : List LevelObject) (i : Input)
    (p : Player) : prevYOf m os i p =
      p.position.y - (movedOf m os i p).velocity.y := rfl

def blockObj (gx gy : ℚ) : LevelObject := ⟨.BLOCK, gx, gy⟩

def blockCfg (gx gy len : ℚ) : Config :=
  ⟨⟨[blockObj gx gy], len, .CLASSIC⟩, false, false⟩

/-- A block's full-tile rectangle. -/
def blockTile (gx gy : ℚ) : Rect :=
  ⟨gx * TILE_SIZE, -(gy) * TILE_SIZE, TILE_SIZE, TILE_SIZE⟩

lemma runObjects_single_block (isTest : Bool) (trail : List Vector2)
    (g prevY cx cy : ℚ) (r : Rect) (gx gy : ℚ) (p : Player) (i : Input) :
    runObjects isTest trail g prevY cx cy r [blockObj gx gy] p i [] =
      if checkCollision r (blockTile gx gy) then
        if g = 1 then
          if p.velocity.y ≥ 0 ∧ prevY ≤ -(gy) * TILE_SIZE + 15 then
            .cont { p with position.y := -(gy) * TILE_SIZE, velocity.y := 0,
                           isGrounded := true } i []
          else
            .dead { p with isDead := true } i
              (deathEvents isTest trail p.position)
        else
          if p.velocity.y ≤ 0 ∧
              prevY - TILE_SIZE ≥ -(gy) * TILE_SIZE + TILE_SIZE - 15 then
            .cont { p with
                      position.y := -(gy) * TILE_SIZE + TILE_SIZE + TILE_SIZE,
                      velocity.y := 0, isGrounded := true } i []
          else
            .dead { p with isDead := true } i
              (deathEvents isTest trail p.position)
      else .cont p i [] := by
  unfold runObjects blockObj blockTile
  simp [runObjects, isOrbType, isPortalType, solidHitbox]

lemma floorStep_noop_g1 (m : GameMode) (isTest : Bool) (trail : List Vector2)
    (p : Player) (hd : p.isDead = false) (h : p.position.y < 0) :
    floorStep m isTest 1 trail p = (p, []) := by
  unfold floorStep
  simp [hd, not_le.mpr h]

lemma floorStep_noop_classic_neg1 (isTest : Bool) (trail : List Vector2)
    (p : Player) (hd : p.isDead = false)
    (h : -(CEILING_HEIGHT * TILE_SIZE) < p.position.y - TILE_SIZE) :
    floorStep .CLASSIC isTest (-1) trail p = (p, []) := by
  unfold floorStep
  simp [hd, not_le.mpr h]
  exact fun h1 => absurd h1 (by norm_num)

/-- The player after this tick's movement, on the one-block level. -/
def blockMoved (gx gy : ℚ) (s : SimState) : Player :=
  movedOf .CLASSIC [blockObj gx gy] s.input s.player

/-- The code's `prevY` value, on the one-block level. -/
def blockPrevY (gx gy : ℚ) (s : SimState) : ℚ :=
  prevYOf .CLASSIC [blockObj gx gy] s.input s.player

lemma blockTickLoop (gx gy len : ℚ) (s : SimState) :
    tickLoopOf (blockCfg gx gy len) s =
      if checkCollision (playerRect (blockMoved gx gy s)) (blockTile gx gy) then
        if s.player.gravityScale = 1 then
          if (blockMoved gx gy s).velocity.y ≥ 0 ∧
              blockPrevY gx gy s ≤ -(gy) * TILE_SIZE + 15 then
            .cont ({ (blockMoved gx gy s) with
                       position.y := -(gy) * TILE_SIZE,
                       velocity.y := 0, isGrounded := true }) s.input []
          else
            .dead ({ (blockMoved gx gy s) with isDead := true }) s.input
              (deathEvents false (trailOf (blockCfg gx gy len) s)
                (blockMoved gx gy s).position)
        else
          if (blockMoved gx gy s).velocity.y ≤ 0 ∧
              blockPrevY gx gy s - TILE_SIZE ≥
                -(gy) * TILE_SIZE + TILE_SIZE - 15 then
            .cont ({ (blockMoved gx gy s) with
                       position.y := -(gy) * TILE_SIZE + TILE_SIZE + TILE_SIZE,
                       velocity.y := 0, isGrounded := true }) s.input []
          else
            .dead ({ (blockMoved gx gy s) with isDead := true }) s.input
              (deathEvents false (trailOf (blockCfg gx gy len) s)
                (blockMoved gx gy s).position)
      else .cont (blockMoved gx gy s) s.input [] :=
  runObjects_single_block false (trailOf (blockCfg gx gy len) s)
    s.player.gravityScale (blockPrevY gx gy s) _ _ (playerRect (blockMoved gx gy s))
    gx gy (blockMoved gx gy s) s.input

lemma blockMoved_isDead (gx gy : ℚ) (s : SimState) :
    (blockMoved gx gy s).isDead = s.player.isDead := movedOf_isDead _ _ _ _

/-- Outcome of a g = +1 accepted landing on the one-block level. -/
lemma blockLanded_g1 (gx gy len : ℚ) (s : SimState)
    (halive : s.player.isDead = false) (hg1 : s.player.gravityScale = 1)
    (hgy1 : 1 ≤ gy)
    (hov : checkCollision (playerRect (blockMoved gx gy s)) (blockTile gx gy) = true)
    (hcond : (blockMoved gx gy s).velocity.y ≥ 0 ∧
      blockPrevY gx gy s ≤ -(gy) * TILE_SIZE + 15) :
    (update (blockCfg gx gy len) s).1.player =
      { (blockMoved gx gy s) with
          position.y := -(gy) * TILE_SIZE, velocity.y := 0,
          isGrounded := true } := by
  have hloop := blockTickLoop gx gy len s
  rw [if_pos hov, hg1, if_pos rfl, if_pos hcond] at hloop
  have hup := update_cont (blockCfg gx gy len) s halive _ _ _ hloop
  have hpl : (update (blockCfg gx gy len) s).1.player =
      (floorStep .CLASSIC false s.player.gravityScale
        (trailOf (blockCfg gx gy len) s)
        { (blockMoved gx gy s) with
            position.y := -(gy) * TILE_SIZE, velocity.y := 0,
            isGrounded := true }).1 := by
    rw [hup]
    rfl
  rw [hpl, hg1, floorStep_noop_g1]
  · rw [blockMoved_isDead]; exact halive
  · show -(gy) * TILE_SIZE < 0
    unfold TILE_SIZE
    linarith

/-- Outcome of a g = +1 rejected landing (fatal block collision). -/
lemma blockDead_g1 (gx gy len : ℚ) (s : SimState)
    (halive : s.player.isDead = false) (hg1 : s.player.gravityScale = 1)
    (hov : checkCollision (playerRect (blockMoved gx gy s)) (blockTile gx gy) = true)
    (hcond : ¬((blockMoved gx gy s).velocity.y ≥ 0 ∧
      blockPrevY gx gy s ≤ -(gy) * TILE_SIZE + 15)) :
    (update (blockCfg gx gy len) s).1.player =
      { (blockMoved gx gy s) with isDead := true } := by
  have hloop := blockTickLoop gx gy len s
  rw [if_pos hov, hg1, if_pos rfl, if_neg hcond] at hloop
  rw [update_deadloop (blockCfg gx gy len) s halive _ _ _ hloop]

/-- Outcome of a tick with no overlap on the one-block level (g = +1, player
strictly above the floor). -/
lemma blockNoOverlap_g1 (gx gy len : ℚ) (s : SimState)
    (halive : s.player.isDead = false) (hg1 : s.player.gravityScale = 1)
    (hneg : (blockMoved gx gy s).position.y < 0)
    (hov : ¬(checkCollision (playerRect (blockMoved gx gy s))
      (blockTile gx gy) = true)) :
    (update (blockCfg gx gy len) s).1.player = blockMoved gx gy s := by
  have hloop := blockTickLoop gx gy len s
  rw [if_neg hov] at hloop
  have hup := update_cont (blockCfg gx gy len) s halive _ _ _ hloop
  have hpl : (update (blockCfg gx gy len) s).1.player =
      (floorStep .CLASSIC false s.player.gravityScale
        (trailOf (blockCfg gx gy len) s) (blockMoved gx gy s)).1 := by
    rw [hup]
    rfl
  rw [hpl, hg1, floorStep_noop_g1]
  · rw [blockMoved_isDead]; exact halive
  · exact hneg

/-- Outcome of a g = -1 accepted landing (underside) on the one-block level. -/
lemma blockLanded_neg1 (gx gy len : ℚ) (s : SimState)
    (halive : s.player.isDead = false) (hgneg : s.player.gravityScale = -1)
    (hgy2 : gy ≤ 12)
    (hov : checkCollision (playerRect (blockMoved gx gy s)) (blockTile gx gy) = true)
    (hcond : (blockMoved gx gy s).velocity.y ≤ 0 ∧
      blockPrevY gx gy s - TILE_SIZE ≥ -(gy) * TILE_SIZE + TILE_SIZE - 15) :
    (update (blockCfg gx gy len) s).1.player =
      { (blockMoved gx gy s) with
          position.y := -(gy) * TILE_SIZE + TILE_SIZE + TILE_SIZE,
          velocity.y := 0, isGrounded := true } := by
  have hloop := blockTickLoop gx gy len s
  rw [if_pos hov, hgneg, if_neg (by norm_num : ¬((-1 : ℚ) = 1)),
    if_pos hcond] at hloop
  have hup := update_cont (blockCfg gx gy len) s halive _ _ _ hloop
  have hpl : (update (blockCfg gx gy len) s).1.player =
      (floorStep .CLASSIC false s.player.gravityScale
        (trailOf (blockCfg gx gy len) s)
        { (blockMoved gx gy s) with
            position.y := -(gy) * TILE_SIZE + TILE_SIZE + TILE_SIZE,
            velocity.y := 0, isGrounded := true }).1 := by
    rw [hup]
    rfl
  rw [hpl, hgneg, floorStep_noop_classic_neg1]
  · rw [blockMoved_isDead]; exact halive
  · show -(CEILING_HEIGHT * TILE_SIZE) <
      -(gy) * TILE_SIZE + TILE_SIZE + TILE_SIZE - TILE_SIZE
    have ht : TILE_SIZE = 48 := rfl
    have hc : CEILING_HEIGHT = 12 := rfl
    rw [ht, hc]
    linarith

/-- Outcome of a g = -1 rejected landing (fatal block collision). -/
lemma blockDead_neg1 (gx gy len : ℚ) (s : SimState)
    (halive : s.player.isDead = false) (hgneg : s.player.gravityScale = -1)
    (hov : checkCollision (playerRect (blockMoved gx gy s)) (blockTile gx gy) = true)
    (hcond : ¬((blockMoved gx gy s).velocity.y ≤ 0 ∧
      blockPrevY gx gy s - TILE_SIZE ≥ -(gy) * TILE_SIZE + TILE_SIZE - 15)) :
    (update (blockCfg gx gy len) s).1.player =
      { (blockMoved gx gy s) with isDead := true } := by
  have hloop := blockTickLoop gx gy len s
  rw [if_pos hov, hgneg, if_neg (by norm_num : ¬((-1 : ℚ) = 1)),
    if_neg hcond] at hloop
  rw [update_deadloop (blockCfg gx gy len) s halive _ _ _ hloop]

def c3CexState : SimState :=
  { time := 0,
    player := { position := ⟨30, -28⟩, velocity := ⟨9, 18⟩, isGrounded := false,
                isDead := false, rotation := 0, gravityScale := 1,
                canOrbJump := true, speedMultiplier := 1, lastPortalX := none },
    input := ⟨false, false⟩, recordedTrail := [] }

/-- Counterexample to C3: the code's "previous position" (`prevY`, line 380)
is the pre-move position *minus* the post-physics velocity, not the actual
previous position.  Here the player's hitbox overlaps the block (at tile
(1,1), landing plane `y = -48`), the player moves toward the block
(velocity 20 after gravity), and its actual previous vertical position
`-28` is 20px past the landing plane — more than the 15px tolerance, so the
claim demands death — yet the code accepts the landing (grounded, snapped to
the surface, alive). -/
theorem claim_C3_counterexample :
    checkCollision (playerRect (blockMoved 1 1 c3CexState)) (blockTile 1 1) = true ∧
    (blockMoved 1 1 c3CexState).velocity.y = 20 ∧
    c3CexState.player.position.y = -28 ∧
    c3CexState.player.position.y > -(1 : ℚ) * TILE_SIZE + 15 ∧
    (update (blockCfg 1 1 100) c3CexState).1.player.isGrounded = true ∧
    (update (blockCfg 1 1 100) c3CexState).1.player.position.y = -48 ∧
    (update (blockCfg 1 1 100) c3CexState).1.player.isDead = false :=
  ⟨by with_unfolding_all rfl, by with_unfolding_all rfl, rfl,
   of_decide_eq_true (by with_unfolding_all rfl),
   by with_unfolding_all rfl, by with_unfolding_all rfl,
   by with_unfolding_all rfl⟩

/-- C3 (amended): on a CLASSIC level whose single object is a BLOCK at tile
`(gx, gy)` (with `1 ≤ gy ≤ 12`, i.e. between floor and ceiling), for every
tick on which the player's inset hitbox overlaps the block's full-tile
rectangle, the landing is accepted — position snapped to the block surface,
vertical velocity zeroed, grounded set, player alive — if and only if the
player moves toward the block from the side given by the tick's gravity sign
and the code's extrapolated previous position `prevY` (the pre-move vertical
position minus the post-physics vertical velocity) is not past the landing
plane by more than 15px; otherwise the player dies.  Consequently (third
conjunct) a player falling from above the block (pre-tick feet at most 10px
past the plane) with any downward velocity up to `TERMINAL_VELOCITY` and
horizontally aligned with the block either lands on contact or remains at
most 10px past the plane, alive — it never tunnels through. -/
theorem claim_C3_block_landing (gx gy len : ℚ) (s : SimState)
    (halive : s.player.isDead = false) (hgy1 : 1 ≤ gy) (hgy2 : gy ≤ 12) :
    (checkCollision (playerRect (blockMoved gx gy s)) (blockTile gx gy) = true →
      s.player.gravityScale = 1 →
      (((update (blockCfg gx gy len) s).1.player.isGrounded = true ∧
        (update (blockCfg gx gy len) s).1.player.position.y = -(gy) * TILE_SIZE ∧
        (update (blockCfg gx gy len) s).1.player.velocity.y = 0 ∧
        (update (blockCfg gx gy len) s).1.player.isDead = false) ↔
        ((blockMoved gx gy s).velocity.y ≥ 0 ∧
          blockPrevY gx gy s ≤ -(gy) * TILE_SIZE + 15)) ∧
      (¬((blockMoved gx gy s).velocity.y ≥ 0 ∧
          blockPrevY gx gy s ≤ -(gy) * TILE_SIZE + 15) →
        (update (blockCfg gx gy len) s).1.player.isDead = true)) ∧
    (checkCollision (playerRect (blockMoved gx gy s)) (blockTile gx gy) = true →
      s.player.gravityScale = -1 →
      (((update (blockCfg gx gy len) s).1.player.isGrounded = true ∧
        (update (blockCfg gx gy len) s).1.player.position.y =
          -(gy) * TILE_SIZE + TILE_SIZE + TILE_SIZE ∧
        (update (blockCfg gx gy len) s).1.player.velocity.y = 0 ∧
        (update (blockCfg gx gy len) s).1.player.isDead = false) ↔
        ((blockMoved gx gy s).velocity.y ≤ 0 ∧
          blockPrevY gx gy s - TILE_SIZE ≥ -(gy) * TILE_SIZE + TILE_SIZE - 15)) ∧
      (¬((blockMoved gx gy s).velocity.y ≤ 0 ∧
          blockPrevY gx gy s - TILE_SIZE ≥ -(gy) * TILE_SIZE + TILE_SIZE - 15) →
        (update (blockCfg gx gy len) s).1.player.isDead = true)) ∧
    (s.player.gravityScale = 1 →
      s.player.position.y ≤ -(gy) * TILE_SIZE + 10 →
      0 ≤ (blockMoved gx gy s).velocity.y →
      (blockMoved gx gy s).velocity.y ≤ TERMINAL_VELOCITY →
      (blockMoved gx gy s).position.x + 10 < gx * TILE_SIZE + TILE_SIZE →
      (blockMoved gx gy s).position.x + 10 + (TILE_SIZE - 20) > gx * TILE_SIZE →
      ((update (blockCfg gx gy len) s).1.player.isDead = false ∧
       (update (blockCfg gx gy len) s).1.player.position.y ≤
         -(gy) * TILE_SIZE + 10 ∧
       (checkCollision (playerRect (blockMoved gx gy s)) (blockTile gx gy) = true →
         (update (blockCfg gx gy len) s).1.player.isGrounded = true ∧
         (update (blockCfg gx gy len) s).1.player.position.y =
           -(gy) * TILE_SIZE))) := by
  have ht : TILE_SIZE = 48 := rfl
  have hprev : blockPrevY gx gy s =
      s.player.position.y - (blockMoved gx gy s).velocity.y :=
    prevYOf_eq .CLASSIC [blockObj gx gy] s.input s.player
  have hqy : (blockMoved gx gy s).position.y =
      s.player.position.y + (blockMoved gx gy s).velocity.y :=
    movedOf_position_y .CLASSIC [blockObj gx gy] s.input s.player
  refine ⟨fun hov hg1 => ⟨⟨fun hfields => ?_, fun hcond => ?_⟩, fun hcond => ?_⟩,
    fun hov hgneg => ⟨⟨fun hfields => ?_, fun hcond => ?_⟩, fun hcond => ?_⟩,
    fun hg1 hyy hv0 hv30 hx1 hx2 => ?_⟩
  · by_contra hcond
    have h4 := hfields.2.2.2
    rw [blockDead_g1 gx gy len s halive hg1 hov hcond] at h4
    simp at h4
  · rw [blockLanded_g1 gx gy len s halive hg1 hgy1 hov hcond]
    refine ⟨rfl, rfl, rfl, ?_⟩
    show (blockMoved gx gy s).isDead = false
    rw [blockMoved_isDead]; exact halive
  · rw [blockDead_g1 gx gy len s halive hg1 hov hcond]
  · by_contra hcond
    have h4 := hfields.2.2.2
    rw [blockDead_neg1 gx gy len s halive hgneg hov hcond] at h4
    simp at h4
  · rw [blockLanded_neg1 gx gy len s halive hgneg hgy2 hov hcond]
    refine ⟨rfl, rfl, rfl, ?_⟩
    show (blockMoved gx gy s).isDead = false
    rw [blockMoved_isDead]; exact halive
  · rw [blockDead_neg1 gx gy len s halive hgneg hov hcond]
  · by_cases hov : checkCollision (playerRect (blockMoved gx gy s))
        (blockTile gx gy) = true
    · have hcond : (blockMoved gx gy s).velocity.y ≥ 0 ∧
          blockPrevY gx gy s ≤ -(gy) * TILE_SIZE + 15 := by
        constructor
        · exact hv0
        · rw [hprev, ht] at *
          linarith
      rw [blockLanded_g1 gx gy len s halive hg1 hgy1 hov hcond]
      refine ⟨?_, ?_, fun _ => ⟨rfl, rfl⟩⟩
      · show (blockMoved gx gy s).isDead = false
        rw [blockMoved_isDead]; exact halive
      · show -(gy) * TILE_SIZE ≤ -(gy) * TILE_SIZE + 10
        linarith
    · have hneg : (blockMoved gx gy s).position.y < 0 := by
        rw [hqy]
        rw [ht] at *
        unfold TERMINAL_VELOCITY at hv30
        linarith
      rw [blockNoOverlap_g1 gx gy len s halive hg1 hneg hov]
      refine ⟨?_, ?_, fun h => absurd h hov⟩
      · rw [blockMoved_isDead]; exact halive
      · -- from no overlap and horizontal alignment, the vertical overlap
        -- condition `q.y - 10 > -(gy) * 48` must fail
        unfold checkCollision playerRect blockTile at hov
        simp only [Bool.and_eq_true, decide_eq_true_eq] at hov
        by_contra hcon
        push_neg at hcon
        apply hov
        refine ⟨⟨⟨?_, ?_⟩, ?_⟩, ?_⟩
        · rw [ht] at *; linarith
        · rw [ht] at *; linarith
        · rw [hqy] at *
          rw [ht] at *
          unfold TERMINAL_VELOCITY at hv30
          linarith
        · rw [ht] at *; linarith

def c3WitnessState : SimState :=
  { time := 0,
    player := { position := ⟨30, -160⟩, velocity := ⟨9, 18⟩, isGrounded := false,
                isDead := false, rotation := 0, gravityScale := 1,
                canOrbJump := true, speedMultiplier := 1, lastPortalX := none },
    input := ⟨false, false⟩, recordedTrail := [] }

/-- Witness for the amended C3: a player falling toward the block at tile
(1,3) survives the tick without tunneling. -/
theorem claim_C3_witness :
    (update (blockCfg 1 3 100) c3WitnessState).1.player.isDead = false ∧
    (update (blockCfg 1 3 100) c3WitnessState).1.player.position.y ≤
      -(3 : ℚ) * TILE_SIZE + 10 :=
  let h := (claim_C3_block_landing 1 3 100 c3WitnessState rfl (by norm_num)
    (by norm_num)).2.2 rfl
    (of_decide_eq_true (by with_unfolding_all rfl))
    (of_decide_eq_true (by with_unfolding_all rfl))
    (of_decide_eq_true (by with_unfolding_all rfl))
    (of_decide_eq_true (by with_unfolding_all rfl))
    (of_decide_eq_true (by with_unfolding_all rfl))
  ⟨h.1, h.2.1⟩

/-! ## C4: orb single-activation -/

def loopEvents : LoopResult → List Event
  | .cont _ _ e => e
  | .dead _ _ e => e

def loopPlayer : LoopResult → Player
  | .cont p _ _ => p
  | .dead p _ _ => p

lemma orbCount_append (a b : List Event) :
    orbCount (a ++ b) = orbCount a + orbCount b := by
  simp [orbCount, List.filter_append]

lemma orbCount_deathEvents (isTest : Bool) (trail : List Vector2)
    (pos : Vector2) : orbCount (deathEvents isTest trail pos) = 0 := by
  unfold deathEvents orbCount
  split_ifs <;> simp [isOrbEvent]


lemma orbEffect_canOrbJump (g : ℚ) (t : EntityType) (p : Player) :
    (orbEffect g t p).canOrbJump = p.canOrbJump := by
  unfold orbEffect; dsimp only; split_ifs <;> rfl

lemma portalEffect_canOrbJump (t : EntityType) (p : Player) :
    (portalEffect t p).canOrbJump = p.canOrbJump := by
  unfold portalEffect; dsimp only; split_ifs <;> rfl

/-- A collision loop entered with the orb lock consumed (`canOrbJump = false`)
activates no orb and leaves the lock consumed. -/
lemma runObjects_locked (isTest : Bool) (trail : List Vector2)
    (g prevY cx cy : ℚ) (r : Rect) :
    ∀ (objs : List LevelObject) (p : Player) (i : Input) (acc : List Event),
      p.canOrbJump = false →
      orbCount (loopEvents (runObjects isTest trail g prevY cx cy r objs p i acc)) =
        orbCount acc ∧
      (loopPlayer (runObjects isTest trail g prevY cx cy r objs p i acc)).canOrbJump =
        false
  | [], p, i, acc, h => ⟨rfl, h⟩
  | o :: rest, p, i, acc, h => by
    have ih := runObjects_locked isTest trail g prevY cx cy r rest
    rw [runObjects]
    dsimp only
    split_ifs with h1 h2 h3 h4 h5 h6 h7 h8 h9 h10 <;>
      first
      | exact ih _ _ _ h
      | (exfalso
         simp only [Bool.and_eq_true] at h2
         rw [h] at h2
         exact Bool.false_ne_true h2.2)
      | (refine ih _ _ _ ?_
         rw [portalEffect_canOrbJump]
         exact h)
      | (simp [loopEvents, loopPlayer, orbCount_append, orbCount_deathEvents, h])

/-- The loop's event list only grows: the accumulator is a prefix. -/
lemma runObjects_events_prefix (isTest : Bool) (trail : List Vector2)
    (g prevY cx cy : ℚ) (r : Rect) :
    ∀ (objs : List LevelObject) (p : Player) (i : Input) (acc : List Event),
      ∃ es, loopEvents (runObjects isTest trail g prevY cx cy r objs p i acc) =
        acc ++ es
  | [], p, i, acc => ⟨[], by simp [runObjects, loopEvents]⟩
  | o :: rest, p, i, acc => by
    have ih := runObjects_events_prefix isTest trail g prevY cx cy r rest
    rw [runObjects]
    dsimp only
    split_ifs <;>
      first
      | exact ih _ _ _
      | (obtain ⟨es, hes⟩ := ih _ _ (acc ++ [Event.orbActivate o])
         refine ⟨[Event.orbActivate o] ++ es, ?_⟩
         rw [← List.append_assoc]
         exact hes)
      | exact ⟨deathEvents isTest trail p.position, rfl⟩

/-- At most one orb activation is added by one pass of the collision loop. -/
lemma runObjects_le_one (isTest : Bool) (trail : List Vector2)
    (g prevY cx cy : ℚ) (r : Rect) :
    ∀ (objs : List LevelObject) (p : Player) (i : Input) (acc : List Event),
      orbCount (loopEvents (runObjects isTest trail g prevY cx cy r objs p i acc)) ≤
        orbCount acc + 1
  | [], p, i, acc => by simp [runObjects, loopEvents]
  | o :: rest, p, i, acc => by
    have ih := runObjects_le_one isTest trail g prevY cx cy r rest
    rw [runObjects]
    dsimp only
    split_ifs <;>
      first
      | exact ih _ _ _
      | (have hlk := (runObjects_locked isTest trail g prevY cx cy r rest
           (orbEffect g o.type { p with canOrbJump := false })
           { i with jumpPressedThisFrame := false }
           (acc ++ [Event.orbActivate o])
           (by rw [orbEffect_canOrbJump])).1
         rw [hlk, orbCount_append]
         simp [orbCount, isOrbEvent])
      | (simp [loopEvents, orbCount_append, orbCount_deathEvents])

/-- If a pass of the collision loop added an orb activation, the orb lock is
consumed when the loop finishes. -/
lemma runObjects_activated_locked (isTest : Bool) (trail : List Vector2)
    (g prevY cx cy : ℚ) (r : Rect) :
    ∀ (objs : List LevelObject) (p : Player) (i : Input) (acc : List Event),
      orbCount acc <
        orbCount (loopEvents (runObjects isTest trail g prevY cx cy r objs p i acc)) →
      (loopPlayer (runObjects isTest trail g prevY cx cy r objs p i acc)).canOrbJump =
        false
  | [], p, i, acc, h => by simp [runObjects, loopEvents] at h
  | o :: rest, p, i, acc, h => by
    have ih := runObjects_activated_locked isTest trail g prevY cx cy r rest
    rw [runObjects] at h ⊢
    dsimp only at h ⊢
    split_ifs at h ⊢ <;>
      first
      | exact ih _ _ _ h
      | (exact (runObjects_locked isTest trail g prevY cx cy r rest
          (orbEffect g o.type { p with canOrbJump := false })
          { i with jumpPressedThisFrame := false }
          (acc ++ [Event.orbActivate o])
          (by rw [orbEffect_canOrbJump])).2)
      | (exfalso
         simp [loopEvents, orbCount_append, orbCount_deathEvents] at h)

lemma update_dead_events (cfg : Config) (s : SimState)
    (h : s.player.isDead = true) : (update cfg s).2 = [] := by
  unfold update; rw [h]; rfl

lemma physicsStep_canOrbJump_false (i : Input) (p : Player)
    (h : p.canOrbJump = false) : (physicsStep i p).canOrbJump = false := by
  unfold physicsStep; dsimp only; split_ifs <;> simp [h]

lemma stabilityStep_canOrbJump (m : GameMode) (os : List LevelObject)
    (i : Input) (p : Player) :
    (stabilityStep m os i p).canOrbJump = p.canOrbJump := by
  unfold stabilityStep; dsimp only; split_ifs <;> rfl

lemma horizRotStep_canOrbJump (p : Player) :
    (horizRotStep p).canOrbJump = p.canOrbJump := by
  unfold horizRotStep; dsimp only; split_ifs <;> rfl

lemma movedOf_canOrbJump_false (m : GameMode) (os : List LevelObject)
    (i : Input) (p : Player) (h : p.canOrbJump = false) :
    (movedOf m os i p).canOrbJump = false := by
  show (preMoveOf m os i p).canOrbJump = false
  unfold preMoveOf
  rw [horizRotStep_canOrbJump]
  apply physicsStep_canOrbJump_false
  rw [stabilityStep_canOrbJump]
  exact h

lemma orbCount_winStep (isProc isTest : Bool) (len : ℚ)
    (trail : List Vector2) (p : Player) :
    orbCount (winStep isProc isTest len trail p) = 0 := by
  unfold winStep; split_ifs <;> simp [orbCount, isOrbEvent]

lemma orbCount_floorStep (m : GameMode) (isTest : Bool) (g : ℚ)
    (trail : List Vector2) (p : Player) :
    orbCount (floorStep m isTest g trail p).2 = 0 := by
  unfold floorStep; dsimp only
  split_ifs <;>
    first
    | rfl
    | exact orbCount_deathEvents _ _ _

/-- A tick entered with the orb lock consumed activates no orb and leaves the
lock consumed (the input latch's release handler, which is the only place the
lock is reset, is outside the simulation tick). -/
lemma update_locked (cfg : Config) (s : SimState)
    (h : s.player.canOrbJump = false) :
    orbCount (update cfg s).2 = 0 ∧
    (update cfg s).1.player.canOrbJump = false := by
  by_cases hd : s.player.isDead = true
  · rw [update_dead_events cfg s hd, update_dead cfg s hd]
    exact ⟨rfl, h⟩
  · have halive : s.player.isDead = false := by
      simpa using hd
    have hmv : (movedOf cfg.level.gameMode cfg.level.objects s.input
        s.player).canOrbJump = false :=
      movedOf_canOrbJump_false _ _ _ _ h
    have hlk : orbCount (loopEvents (tickLoopOf cfg s)) = orbCount ([] : List Event) ∧
        (loopPlayer (tickLoopOf cfg s)).canOrbJump = false :=
      runObjects_locked cfg.isTestMode (trailOf cfg s) s.player.gravityScale
        (prevYOf cfg.level.gameMode cfg.level.objects s.input s.player) _ _
        (playerRect (movedOf cfg.level.gameMode cfg.level.objects s.input s.player))
        cfg.level.objects
        (movedOf cfg.level.gameMode cfg.level.objects s.input s.player)
        s.input [] hmv
    cases hres : tickLoopOf cfg s with
    | dead p2 i2 e =>
      rw [hres] at hlk
      simp only [loopEvents, loopPlayer] at hlk
      rw [update_deadloop cfg s halive _ _ _ hres]
      exact ⟨by simpa using hlk.1, hlk.2⟩
    | cont p2 i2 e =>
      rw [hres] at hlk
      simp only [loopEvents, loopPlayer] at hlk
      rw [update_cont cfg s halive _ _ _ hres]
      constructor
      · simp only [orbCount_append, orbCount_floorStep, orbCount_winStep]
        simpa using hlk.1
      · rw [floorStep_canOrbJump]
        exact hlk.2

lemma runTicks_locked (cfg : Config) (n : ℕ) (s : SimState)
    (h : s.player.canOrbJump = false) :
    (runTicks cfg n s).player.canOrbJump = false := by
  induction n generalizing s with
  | zero => exact h
  | succ n ih =>
    show (runTicks cfg n (update cfg s).1).player.canOrbJump = false
    exact ih _ (update_locked cfg s h).2

/-- A tick that activated an orb leaves the lock consumed. -/
lemma update_activated_locked (cfg : Config) (s : SimState)
    (h : 1 ≤ orbCount (update cfg s).2) :
    (update cfg s).1.player.canOrbJump = false := by
  by_cases hd : s.player.isDead = true
  · rw [update_dead_events cfg s hd] at h
    simp [orbCount] at h
  · have halive : s.player.isDead = false := by simpa using hd
    have hact : orbCount ([] : List Event) <
        orbCount (loopEvents (tickLoopOf cfg s)) →
        (loopPlayer (tickLoopOf cfg s)).canOrbJump = false :=
      runObjects_activated_locked cfg.isTestMode (trailOf cfg s)
        s.player.gravityScale
        (prevYOf cfg.level.gameMode cfg.level.objects s.input s.player) _ _
        (playerRect (movedOf cfg.level.gameMode cfg.level.objects s.input s.player))
        cfg.level.objects
        (movedOf cfg.level.gameMode cfg.level.objects s.input s.player)
        s.input []
    cases hres : tickLoopOf cfg s with
    | dead p2 i2 e =>
      rw [hres] at hact
      simp only [loopEvents, loopPlayer] at hact
      rw [update_deadloop cfg s halive _ _ _ hres] at h ⊢
      apply hact
      simpa [orbCount] using h
    | cont p2 i2 e =>
      rw [hres] at hact
      simp only [loopEvents, loopPlayer] at hact
      rw [update_cont cfg s halive _ _ _ hres] at h ⊢
      rw [floorStep_canOrbJump]
      apply hact
      simp only [orbCount_append, orbCount_floorStep, orbCount_winStep] at h
      simpa [orbCount] using h

/-- The activation predicate an orb satisfies on the tick of its activation,
as a function of the fixed player centre and the input latch, for a player
whose orb lock is still available. -/
def orbFires (cx cy : ℚ) (i : Input) (o : LevelObject) : Bool :=
  isOrbType o.type &&
  decide ((cx - (o.x * TILE_SIZE + TILE_SIZE / 2)) *
      (cx - (o.x * TILE_SIZE + TILE_SIZE / 2)) +
    (cy - (-(o.y) * TILE_SIZE + TILE_SIZE / 2)) *
      (cy - (-(o.y) * TILE_SIZE + TILE_SIZE / 2)) < 32 * 32) &&
  (i.jumpPressedThisFrame || i.jump)

lemma filter_deathEvents (isTest : Bool) (trail : List Vector2)
    (pos : Vector2) : (deathEvents isTest trail pos).filter isOrbEvent = [] := by
  unfold deathEvents; split_ifs <;> rfl

/-- The orb that activates on a tick is the first object in level iteration
order satisfying the activation predicate. -/
lemma runObjects_first_match (isTest : Bool) (trail : List Vector2)
    (g prevY cx cy : ℚ) (r : Rect) :
    ∀ (objs : List LevelObject) (p : Player) (i : Input) (acc : List Event),
      p.canOrbJump = true → acc.filter isOrbEvent = [] →
      ∀ ob, ((loopEvents (runObjects isTest trail g prevY cx cy r objs p i acc)).filter
          isOrbEvent).head? = some (.orbActivate ob) →
        objs.find? (orbFires cx cy i) = some ob
  | [], p, i, acc, hcan, hacc, ob, hhd => by
    simp only [runObjects, loopEvents, hacc] at hhd
    simp at hhd
  | o :: rest, p, i, acc, hcan, hacc, ob, hhd => by
    have ih := runObjects_first_match isTest trail g prevY cx cy r rest
    rw [runObjects] at hhd
    dsimp only at hhd
    by_cases h1 : isOrbType o.type = true
    · rw [if_pos h1] at hhd
      by_cases h2 : (decide ((cx - (o.x * TILE_SIZE + TILE_SIZE / 2)) *
            (cx - (o.x * TILE_SIZE + TILE_SIZE / 2)) +
          (cy - (-(o.y) * TILE_SIZE + TILE_SIZE / 2)) *
            (cy - (-(o.y) * TILE_SIZE + TILE_SIZE / 2)) < 32 * 32) &&
          (i.jumpPressedThisFrame || (i.jump && p.canOrbJump)) &&
          p.canOrbJump) = true
      · rw [if_pos h2] at hhd
        -- the activation leaf: the head orb event is this object's
        have hfire : orbFires cx cy i o = true := by
          simp only [Bool.and_eq_true, hcan, Bool.and_true] at h2
          simp only [orbFires, Bool.and_eq_true]
          exact ⟨⟨h1, h2.1⟩, h2.2⟩
        have hlock := (runObjects_locked isTest trail g prevY cx cy r rest
          (orbEffect g o.type { p with canOrbJump := false })
          { i with jumpPressedThisFrame := false }
          (acc ++ [Event.orbActivate o])
          (by rw [orbEffect_canOrbJump])).1
        obtain ⟨es, hes⟩ := runObjects_events_prefix isTest trail g prevY cx cy r
          rest (orbEffect g o.type { p with canOrbJump := false })
          { i with jumpPressedThisFrame := false }
          (acc ++ [Event.orbActivate o])
        rw [hes, orbCount_append] at hlock
        have hes0 : orbCount es = 0 := by omega
        have hesnil : es.filter isOrbEvent = [] := by
          have := List.length_eq_zero.mp hes0
          exact this
        rw [hes] at hhd
        simp only [List.filter_append, hacc, hesnil, List.nil_append,
          List.append_nil] at hhd
        simp only [List.filter, isOrbEvent] at hhd
        simp at hhd
        rw [List.find?_cons_of_pos _ hfire]
        rw [hhd]
      · rw [if_neg h2] at hhd
        have hnofire : ¬(orbFires cx cy i o = true) := by
          intro hf
          apply h2
          simp only [orbFires, Bool.and_eq_true] at hf
          simp only [Bool.and_eq_true, hcan, Bool.and_true]
          exact ⟨hf.1.2, hf.2⟩
        rw [List.find?_cons_of_neg _ hnofire]
        exact ih p i acc hcan hacc ob hhd
    · rw [if_neg h1] at hhd
      have hnofire : ¬(orbFires cx cy i o = true) := by
        intro hf
        simp only [orbFires, Bool.and_eq_true] at hf
        exact h1 hf.1.1
      rw [List.find?_cons_of_neg _ hnofire]
      by_cases h3 : isPortalType o.type = true
      · rw [if_pos h3] at hhd
        by_cases h4 : checkCollision r
            ⟨o.x * TILE_SIZE + 15,
             -(o.y) * TILE_SIZE - (PORTAL_HEIGHT_BLOCKS - 1) * TILE_SIZE, 18,
             PORTAL_HEIGHT_BLOCKS * TILE_SIZE⟩ = true
        · rw [if_pos h4] at hhd
          exact ih _ i acc (by rw [portalEffect_canOrbJump]; exact hcan) hacc ob hhd
        · rw [if_neg h4] at hhd
          exact ih p i acc hcan hacc ob hhd
      · rw [if_neg h3] at hhd
        by_cases h5 : checkCollision r
            (solidHitbox o.type (o.x * TILE_SIZE) (-(o.y) * TILE_SIZE)) = true
        · rw [if_pos h5] at hhd
          by_cases h6 : (o.type == EntityType.SPIKE ||
              o.type == EntityType.HALF_SPIKE) = true
          · rw [if_pos h6] at hhd
            simp only [loopEvents, List.filter_append, hacc,
              filter_deathEvents, List.nil_append] at hhd
            simp at hhd
          · rw [if_neg h6] at hhd
            by_cases h7 : (o.type == EntityType.BLOCK) = true
            · rw [if_pos h7] at hhd
              by_cases h8 : g = 1
              · rw [if_pos h8] at hhd
                by_cases h9 : p.velocity.y ≥ 0 ∧
                    prevY ≤ -(o.y) * TILE_SIZE + 15
                · rw [if_pos h9] at hhd
                  refine ih _ i acc ?_ hacc ob hhd
                  exact hcan
                · rw [if_neg h9] at hhd
                  simp only [loopEvents, List.filter_append, hacc,
                    filter_deathEvents, List.nil_append] at hhd
                  simp at hhd
              · rw [if_neg h8] at hhd
                by_cases h10 : p.velocity.y ≤ 0 ∧
                    prevY - TILE_SIZE ≥ -(o.y) * TILE_SIZE + TILE_SIZE - 15
                · rw [if_pos h10] at hhd
                  refine ih _ i acc ?_ hacc ob hhd
                  exact hcan
                · rw [if_neg h10] at hhd
                  simp only [loopEvents, List.filter_append, hacc,
                    filter_deathEvents, List.nil_append] at hhd
                  simp at hhd
            · rw [if_neg h7] at hhd
              exact ih p i acc hcan hacc ob hhd
        · rw [if_neg h5] at hhd
          exact ih p i acc hcan hacc ob hhd

lemma filter_floorStep (m : GameMode) (isTest : Bool) (g : ℚ)
    (trail : List Vector2) (p : Player) :
    ((floorStep m isTest g trail p).2).filter isOrbEvent = [] := by
  unfold floorStep; dsimp only
  split_ifs <;> first | rfl | exact filter_deathEvents _ _ _

lemma filter_winStep (isProc isTest : Bool) (len : ℚ) (trail : List Vector2)
    (p : Player) : (winStep isProc isTest len trail p).filter isOrbEvent = [] := by
  unfold winStep; split_ifs <;> rfl

/-- C4: at most one orb activates per tick (first satisfied match in level
iteration order wins), and once a tick has activated an orb, no further orb
activation occurs on any subsequent tick as long as no input release resets
the lock (in this model the input latch is only mutated by the tick itself,
which matches "held stays true and the lock is not reset"): the activation's
impulse is applied exactly once. -/
theorem claim_C4_orb_single_activation (cfg : Config) (s : SimState) :
    orbCount (update cfg s).2 ≤ 1 ∧
    (1 ≤ orbCount (update cfg s).2 →
      ∀ n : ℕ,
        orbCount (update cfg (runTicks cfg n (update cfg s).1)).2 = 0) ∧
    (s.player.isDead = false →
      (movedOf cfg.level.gameMode cfg.level.objects s.input s.player).canOrbJump =
        true →
      ∀ ob, (((update cfg s).2).filter isOrbEvent).head? =
          some (.orbActivate ob) →
        cfg.level.objects.find?
          (orbFires
            ((movedOf cfg.level.gameMode cfg.level.objects s.input
              s.player).position.x + TILE_SIZE / 2)
            ((movedOf cfg.level.gameMode cfg.level.objects s.input
              s.player).position.y - TILE_SIZE / 2)
            s.input) = some ob) := by
  refine ⟨?_, fun h n => ?_, fun halive hcan ob hhd => ?_⟩
  · by_cases hd : s.player.isDead = true
    · rw [update_dead_events cfg s hd]
      simp [orbCount]
    · have halive : s.player.isDead = false := by simpa using hd
      have hle : orbCount (loopEvents (tickLoopOf cfg s)) ≤
          orbCount ([] : List Event) + 1 :=
        runObjects_le_one cfg.isTestMode (trailOf cfg s) s.player.gravityScale
          (prevYOf cfg.level.gameMode cfg.level.objects s.input s.player) _ _
          (playerRect (movedOf cfg.level.gameMode cfg.level.objects s.input
            s.player))
          cfg.level.objects
          (movedOf cfg.level.gameMode cfg.level.objects s.input s.player)
          s.input []
      cases hres : tickLoopOf cfg s with
      | dead p2 i2 e =>
        rw [hres] at hle
        simp only [loopEvents] at hle
        rw [update_deadloop cfg s halive _ _ _ hres]
        simpa [orbCount] using hle
      | cont p2 i2 e =>
        rw [hres] at hle
        simp only [loopEvents] at hle
        rw [update_cont cfg s halive _ _ _ hres]
        simp only [orbCount_append, orbCount_floorStep, orbCount_winStep]
        simpa [orbCount] using hle
  · exact (update_locked cfg _
      (runTicks_locked cfg n (update cfg s).1
        (update_activated_locked cfg s h))).1
  · have hfm := runObjects_first_match cfg.isTestMode (trailOf cfg s)
      s.player.gravityScale
      (prevYOf cfg.level.gameMode cfg.level.objects s.input s.player)
      ((movedOf cfg.level.gameMode cfg.level.objects s.input
        s.player).position.x + TILE_SIZE / 2)
      ((movedOf cfg.level.gameMode cfg.level.objects s.input
        s.player).position.y - TILE_SIZE / 2)
      (playerRect (movedOf cfg.level.gameMode cfg.level.objects s.input
        s.player))
      cfg.level.objects
      (movedOf cfg.level.gameMode cfg.level.objects s.input s.player)
      s.input [] hcan rfl ob
    apply hfm
    show (List.filter isOrbEvent (loopEvents (tickLoopOf cfg s))).head? =
      some (Event.orbActivate ob)
    cases hres : tickLoopOf cfg s with
    | dead p2 i2 e =>
      rw [update_deadloop cfg s halive _ _ _ hres] at hhd
      simp only [loopEvents]
      exact hhd
    | cont p2 i2 e =>
      rw [update_cont cfg s halive _ _ _ hres] at hhd
      simp only [List.filter_append, filter_floorStep, filter_winStep,
        List.append_nil] at hhd
      simp only [loopEvents]
      exact hhd

def c4Cfg : Config := ⟨⟨[⟨.ORB_JUMP, 1, 1⟩], 200, .CLASSIC⟩, false, false⟩

def c4State : SimState :=
  { time := 0,
    player := { position := ⟨39, -20⟩, velocity := ⟨9, 0⟩, isGrounded := false,
                isDead := false, rotation := 0, gravityScale := 1,
                canOrbJump := true, speedMultiplier := 1, lastPortalX := none },
    input := ⟨true, true⟩, recordedTrail := [] }

/-- Witness for C4: an airborne player pressing jump inside a yellow orb's
radius activates it exactly once; two ticks later no further activation has
occurred, and the activated orb is the first (only) match. -/
theorem claim_C4_witness :
    orbCount (update c4Cfg c4State).2 ≤ 1 ∧
    orbCount (update c4Cfg (runTicks c4Cfg 2 (update c4Cfg c4State).1)).2 = 0 ∧
    c4Cfg.level.objects.find?
      (orbFires
        ((movedOf c4Cfg.level.gameMode c4Cfg.level.objects c4State.input
          c4State.player).position.x + TILE_SIZE / 2)
        ((movedOf c4Cfg.level.gameMode c4Cfg.level.objects c4State.input
          c4State.player).position.y - TILE_SIZE / 2)
        c4State.input) = some ⟨.ORB_JUMP, 1, 1⟩ :=
  ⟨(claim_C4_orb_single_activation c4Cfg c4State).1,
   (claim_C4_orb_single_activation c4Cfg c4State).2.1
     (of_decide_eq_true (by with_unfolding_all rfl)) 2,
   (claim_C4_orb_single_activation c4Cfg c4State).2.2 rfl
     (by with_unfolding_all rfl) ⟨.ORB_JUMP, 1, 1⟩
     (by with_unfolding_all rfl)⟩

/-! ## C1 / C7: host callbacks -/

lemma callbackEvents_append (a b : List Event) :
    callbackEvents (a ++ b) = callbackEvents a ++ callbackEvents b := by
  simp [callbackEvents, List.filter_append]

lemma callbackEvents_deathEvents (isTest : Bool) (trail : List Vector2)
    (pos : Vector2) :
    callbackEvents (deathEvents isTest trail pos) =
      deathEvents isTest trail pos := by
  unfold deathEvents; split_ifs <;> rfl

/-- Structure of the collision loop's emitted events: some orb activations
(never callbacks), followed — iff the loop ended the tick in a lethal
collision — by the death callback for the final player position. -/
lemma runObjects_events_split (isTest : Bool) (trail : List Vector2)
    (g prevY cx cy : ℚ) (r : Rect) :
    ∀ (objs : List LevelObject) (p : Player) (i : Input) (acc : List Event),
      (∀ p2 i2 e, runObjects isTest trail g prevY cx cy r objs p i acc =
          .cont p2 i2 e →
        ∃ orbs, callbackEvents orbs = [] ∧ e = acc ++ orbs) ∧
      (∀ p2 i2 e, runObjects isTest trail g prevY cx cy r objs p i acc =
          .dead p2 i2 e →
        ∃ orbs, callbackEvents orbs = [] ∧
          e = acc ++ orbs ++ deathEvents isTest trail p2.position)
  | [], p, i, acc => by
    constructor
    · intro p2 i2 e he
      rw [runObjects] at he
      cases he
      exact ⟨[], rfl, by simp⟩
    · intro p2 i2 e he
      rw [runObjects] at he
      cases he
  | o :: rest, p, i, acc => by
    have ih := runObjects_events_split isTest trail g prevY cx cy r rest
    have horb : ∀ (p' : Player) (i' : Input),
        (∀ p2 i2 e, runObjects isTest trail g prevY cx cy r rest p' i'
            (acc ++ [Event.orbActivate o]) = .cont p2 i2 e →
          ∃ orbs, callbackEvents orbs = [] ∧ e = acc ++ orbs) ∧
        (∀ p2 i2 e, runObjects isTest trail g prevY cx cy r rest p' i'
            (acc ++ [Event.orbActivate o]) = .dead p2 i2 e →
          ∃ orbs, callbackEvents orbs = [] ∧
            e = acc ++ orbs ++ deathEvents isTest trail p2.position) := by
      intro p' i'
      constructor
      · intro p2 i2 e he
        obtain ⟨orbs, h1, h2⟩ := (ih p' i' (acc ++ [Event.orbActivate o])).1
          p2 i2 e he
        refine ⟨[Event.orbActivate o] ++ orbs, ?_, ?_⟩
        · rw [callbackEvents_append, h1]; rfl
        · rw [h2, List.append_assoc]
      · intro p2 i2 e he
        obtain ⟨orbs, h1, h2⟩ := (ih p' i' (acc ++ [Event.orbActivate o])).2
          p2 i2 e he
        refine ⟨[Event.orbActivate o] ++ orbs, ?_, ?_⟩
        · rw [callbackEvents_append, h1]; rfl
        · rw [h2]
          simp [List.append_assoc]
    have hdead : ∀ (pd : Player),
        (∀ p2 i2 e, (LoopResult.dead pd i
            (acc ++ deathEvents isTest trail pd.position) : LoopResult) =
            .cont p2 i2 e →
          ∃ orbs, callbackEvents orbs = [] ∧ e = acc ++ orbs) ∧
        (∀ p2 i2 e, (LoopResult.dead pd i
            (acc ++ deathEvents isTest trail pd.position) : LoopResult) =
            .dead p2 i2 e →
          ∃ orbs, callbackEvents orbs = [] ∧
            e = acc ++ orbs ++ deathEvents isTest trail p2.position) := by
      intro pd
      constructor
      · intro p2 i2 e he
        cases he
      · intro p2 i2 e he
        cases he
        exact ⟨[], rfl, by simp⟩
    rw [runObjects]
    dsimp only
    by_cases h1 : isOrbType o.type = true
    · rw [if_pos h1]
      by_cases h2 : (decide ((cx - (o.x * TILE_SIZE + TILE_SIZE / 2)) *
            (cx - (o.x * TILE_SIZE + TILE_SIZE / 2)) +
          (cy - (-(o.y) * TILE_SIZE + TILE_SIZE / 2)) *
            (cy - (-(o.y) * TILE_SIZE + TILE_SIZE / 2)) < 32 * 32) &&
          (i.jumpPressedThisFrame || (i.jump && p.canOrbJump)) &&
          p.canOrbJump) = true
      · rw [if_pos h2]
        exact horb _ _
      · rw [if_neg h2]
        exact ih _ _ _
    · rw [if_neg h1]
      by_cases h3 : isPortalType o.type = true
      · rw [if_pos h3]
        by_cases h4 : checkCollision r
            ⟨o.x * TILE_SIZE + 15,
             -(o.y) * TILE_SIZE - (PORTAL_HEIGHT_BLOCKS - 1) * TILE_SIZE, 18,
             PORTAL_HEIGHT_BLOCKS * TILE_SIZE⟩ = true
        · rw [if_pos h4]; exact ih _ _ _
        · rw [if_neg h4]; exact ih _ _ _
      · rw [if_neg h3]
        by_cases h5 : checkCollision r
            (solidHitbox o.type (o.x * TILE_SIZE) (-(o.y) * TILE_SIZE)) = true
        · rw [if_pos h5]
          by_cases h6 : (o.type == EntityType.SPIKE ||
              o.type == EntityType.HALF_SPIKE) = true
          · rw [if_pos h6]
            exact hdead _
          · rw [if_neg h6]
            by_cases h7 : (o.type == EntityType.BLOCK) = true
            · rw [if_pos h7]
              by_cases h8 : g = 1
              · rw [if_pos h8]
                by_cases h9 : p.velocity.y ≥ 0 ∧
                    prevY ≤ -(o.y) * TILE_SIZE + 15
                · rw [if_pos h9]; exact ih _ _ _
                · rw [if_neg h9]; exact hdead _
              · rw [if_neg h8]
                by_cases h10 : p.velocity.y ≤ 0 ∧
                    prevY - TILE_SIZE ≥ -(o.y) * TILE_SIZE + TILE_SIZE - 15
                · rw [if_pos h10]; exact ih _ _ _
                · rw [if_neg h10]; exact hdead _
            · rw [if_neg h7]; exact ih _ _ _
        · rw [if_neg h5]; exact ih _ _ _

/-- Outcomes of the floor/ceiling phase for a living player: either no event
(possibly a clamp), or — only in FREE mode under a stale inverted gravity —
an out-of-bounds death emitting the death callback, with position kept. -/
lemma floorStep_cases (m : GameMode) (isTest : Bool) (g : ℚ)
    (trail : List Vector2) (p : Player) (hd : p.isDead = false) :
    ((floorStep m isTest g trail p).2 = [] ∧
      (floorStep m isTest g trail p).1.isDead = false) ∨
    ((floorStep m isTest g trail p).2 =
        deathEvents isTest trail (floorStep m isTest g trail p).1.position ∧
      (floorStep m isTest g trail p).1.isDead = true ∧
      m = GameMode.FREE ∧ ¬(g = 1) ∧
      ((floorStep m isTest g trail p).1.position.y < -3000 ∨
        (floorStep m isTest g trail p).1.position.y > 1000)) := by
  unfold floorStep
  dsimp only
  split_ifs with hh h1 h2 h3 h4 <;>
    first
    | exact Or.inl ⟨rfl, hd⟩
    | simp_all
    | exact Or.inr ⟨rfl, rfl, h2, h1, h3⟩

/-- Outcomes of the win check. -/
lemma winStep_cases (isProc isTest : Bool) (len : ℚ) (trail : List Vector2)
    (p : Player) :
    winStep isProc isTest len trail p = [] ∨
    (isProc = false ∧ p.position.x > len * TILE_SIZE ∧
      winStep isProc isTest len trail p =
        (if isTest then [.onTestComplete trail none] else [.onWin])) := by
  unfold winStep
  split_ifs with h1 h2 <;>
    first
    | exact Or.inl rfl
    | simp_all

lemma orbEffect_isDead (g : ℚ) (t : EntityType) (p : Player) :
    (orbEffect g t p).isDead = p.isDead := by
  unfold orbEffect; dsimp only; split_ifs <;> rfl

lemma portalEffect_isDead (t : EntityType) (p : Player) :
    (portalEffect t p).isDead = p.isDead := by
  unfold portalEffect; dsimp only; split_ifs <;> rfl

/-- A loop that runs to completion never marks the player dead. -/
lemma runObjects_cont_isDead (isTest : Bool) (trail : List Vector2)
    (g prevY cx cy : ℚ) (r : Rect) :
    ∀ (objs : List LevelObject) (p : Player) (i : Input) (acc : List Event)
      (p2 : Player) (i2 : Input) (e : List Event),
      runObjects isTest trail g prevY cx cy r objs p i acc = .cont p2 i2 e →
      p2.isDead = p.isDead
  | [], p, i, acc, p2, i2, e => by
    intro he
    rw [runObjects] at he
    cases he
    rfl
  | o :: rest, p, i, acc, p2, i2, e => by
    intro he
    have ih := runObjects_cont_isDead isTest trail g prevY cx cy r rest
    rw [runObjects] at he
    dsimp only at he
    split_ifs at he <;>
      first
      | exact ih _ _ _ _ _ _ he
      | exact (ih _ _ _ _ _ _ he).trans rfl
      | (rw [ih _ _ _ _ _ _ he, orbEffect_isDead])
      | (rw [ih _ _ _ _ _ _ he, portalEffect_isDead])
      | cases he

/-- A loop that ends the tick in a lethal collision marks the player dead. -/
lemma runObjects_dead_isDead (isTest : Bool) (trail : List Vector2)
    (g prevY cx cy : ℚ) (r : Rect) :
    ∀ (objs : List LevelObject) (p : Player) (i : Input) (acc : List Event)
      (p2 : Player) (i2 : Input) (e : List Event),
      runObjects isTest trail g prevY cx cy r objs p i acc = .dead p2 i2 e →
      p2.isDead = true
  | [], p, i, acc, p2, i2, e => by
    intro he
    rw [runObjects] at he
    cases he
  | o :: rest, p, i, acc, p2, i2, e => by
    intro he
    have ih := runObjects_dead_isDead isTest trail g prevY cx cy r rest
    rw [runObjects] at he
    dsimp only at he
    split_ifs at he <;>
      first
      | exact ih _ _ _ _ _ _ he
      | (cases he; rfl)

/-- Event structure of one tick from a living state: orb activations (never
callbacks) followed by at most one death callback and at most one win
callback, in this order; a lethal collision suppresses the win check, while
a FREE-mode out-of-bounds death does not. -/
lemma update_events_cases (cfg : Config) (s : SimState)
    (halive : s.player.isDead = false) :
    (∃ orbs, callbackEvents orbs = [] ∧
      (update cfg s).2 = orbs ++
        deathEvents cfg.isTestMode (update cfg s).1.recordedTrail
          (update cfg s).1.player.position ∧
      (update cfg s).1.player.isDead = true) ∨
    (∃ orbs w, callbackEvents orbs = [] ∧
      (update cfg s).2 = orbs ++ w ∧
      (update cfg s).1.player.isDead = false ∧
      (w = [] ∨
        (cfg.isProcedural = false ∧
         (update cfg s).1.player.position.x > cfg.level.length * TILE_SIZE ∧
         w = (if cfg.isTestMode then
            [.onTestComplete (update cfg s).1.recordedTrail none]
          else [.onWin])))) ∨
    (∃ orbs w, callbackEvents orbs = [] ∧
      (update cfg s).2 = orbs ++
        deathEvents cfg.isTestMode (update cfg s).1.recordedTrail
          (update cfg s).1.player.position ++ w ∧
      (update cfg s).1.player.isDead = true ∧
      cfg.level.gameMode = GameMode.FREE ∧
      ((update cfg s).1.player.position.y < -3000 ∨
        (update cfg s).1.player.position.y > 1000) ∧
      (w = [] ∨
        (cfg.isProcedural = false ∧
         (update cfg s).1.player.position.x > cfg.level.length * TILE_SIZE ∧
         w = (if cfg.isTestMode then
            [.onTestComplete (update cfg s).1.recordedTrail none]
          else [.onWin])))) := by
  have hsplit := runObjects_events_split cfg.isTestMode (trailOf cfg s)
    s.player.gravityScale
    (prevYOf cfg.level.gameMode cfg.level.objects s.input s.player)
    ((movedOf cfg.level.gameMode cfg.level.objects s.input
      s.player).position.x + TILE_SIZE / 2)
    ((movedOf cfg.level.gameMode cfg.level.objects s.input
      s.player).position.y - TILE_SIZE / 2)
    (playerRect (movedOf cfg.level.gameMode cfg.level.objects s.input s.player))
    cfg.level.objects
    (movedOf cfg.level.gameMode cfg.level.objects s.input s.player) s.input []
  cases hres : tickLoopOf cfg s with
  | dead p2 i2 e =>
    obtain ⟨orbs, ho, he⟩ := hsplit.2 p2 i2 e hres
    have hp2 : p2.isDead = true :=
      runObjects_dead_isDead cfg.isTestMode (trailOf cfg s)
        s.player.gravityScale
        (prevYOf cfg.level.gameMode cfg.level.objects s.input s.player) _ _
        (playerRect (movedOf cfg.level.gameMode cfg.level.objects s.input
          s.player))
        cfg.level.objects
        (movedOf cfg.level.gameMode cfg.level.objects s.input s.player)
        s.input [] p2 i2 e hres
    left
    rw [update_deadloop cfg s halive _ _ _ hres]
    exact ⟨orbs, ho, by simpa using he, hp2⟩
  | cont p2 i2 e =>
    obtain ⟨orbs, ho, he⟩ := hsplit.1 p2 i2 e hres
    have hp2d : p2.isDead = false := by
      have h1 := runObjects_cont_isDead cfg.isTestMode (trailOf cfg s)
        s.player.gravityScale
        (prevYOf cfg.level.gameMode cfg.level.objects s.input s.player) _ _
        (playerRect (movedOf cfg.level.gameMode cfg.level.objects s.input
          s.player))
        cfg.level.objects
        (movedOf cfg.level.gameMode cfg.level.objects s.input s.player)
        s.input [] p2 i2 e hres
      rw [h1, movedOf_isDead]
      exact halive
    rw [update_cont cfg s halive _ _ _ hres]
    simp only [he, List.nil_append]
    rcases floorStep_cases cfg.level.gameMode cfg.isTestMode
        s.player.gravityScale (trailOf cfg s) p2 hp2d with
      ⟨hf0, hfd⟩ | ⟨hf0, hfd, hm, hg, hoob⟩
    · right; left
      refine ⟨orbs, winStep cfg.isProcedural cfg.isTestMode cfg.level.length
        (trailOf cfg s)
        (floorStep cfg.level.gameMode cfg.isTestMode s.player.gravityScale
          (trailOf cfg s) p2).1, ho, ?_, hfd, ?_⟩
      · rw [hf0]
        simp
      · rcases winStep_cases cfg.isProcedural cfg.isTestMode cfg.level.length
            (trailOf cfg s)
            (floorStep cfg.level.gameMode cfg.isTestMode s.player.gravityScale
              (trailOf cfg s) p2).1 with hw | ⟨hw1, hw2, hw3⟩
        · exact Or.inl hw
        · exact Or.inr ⟨hw1, hw2, hw3⟩
    · right; right
      refine ⟨orbs, winStep cfg.isProcedural cfg.isTestMode cfg.level.length
        (trailOf cfg s)
        (floorStep cfg.level.gameMode cfg.isTestMode s.player.gravityScale
          (trailOf cfg s) p2).1, ho, ?_, hfd, hm, hoob, ?_⟩
      · rw [hf0]
      · rcases winStep_cases cfg.isProcedural cfg.isTestMode cfg.level.length
            (trailOf cfg s)
            (floorStep cfg.level.gameMode cfg.isTestMode s.player.gravityScale
              (trailOf cfg s) p2).1 with hw | ⟨hw1, hw2, hw3⟩
        · exact Or.inl hw
        · exact Or.inr ⟨hw1, hw2, hw3⟩

/-- Callback shape of a single tick outside test mode. -/
lemma update_callbacks_nontest (cfg : Config) (s : SimState)
    (ht : cfg.isTestMode = false) (halive : s.player.isDead = false) :
    callbackEvents (update cfg s).2 = [] ∨
    (callbackEvents (update cfg s).2 = [Event.onDie] ∧
      (update cfg s).1.player.isDead = true) ∨
    (callbackEvents (update cfg s).2 = [Event.onWin] ∧
      cfg.isProcedural = false ∧
      (update cfg s).1.player.position.x > cfg.level.length * TILE_SIZE) ∨
    (callbackEvents (update cfg s).2 = [Event.onDie, Event.onWin] ∧
      (update cfg s).1.player.isDead = true ∧
      cfg.level.gameMode = GameMode.FREE ∧
      ((update cfg s).1.player.position.y < -3000 ∨
        (update cfg s).1.player.position.y > 1000) ∧
      cfg.isProcedural = false ∧
      (update cfg s).1.player.position.x > cfg.level.length * TILE_SIZE) := by
  rcases update_events_cases cfg s halive with
    ⟨orbs, ho, he, hd⟩ | ⟨orbs, w, ho, he, hd, hw⟩ |
    ⟨orbs, w, ho, he, hd, hm, hoob, hw⟩
  · right; left
    rw [he, ht]
    constructor
    · rw [callbackEvents_append, ho]
      rfl
    · exact hd
  · rcases hw with hw | ⟨hw1, hw2, hw3⟩
    · left
      rw [he, hw, callbackEvents_append, ho]
      rfl
    · right; right; left
      rw [he, hw3, ht]
      refine ⟨?_, hw1, hw2⟩
      rw [callbackEvents_append, ho]
      rfl
  · rcases hw with hw | ⟨hw1, hw2, hw3⟩
    · right; left
      rw [he, hw, ht]
      constructor
      · rw [List.append_nil, callbackEvents_append, ho]
        rfl
      · exact hd
    · right; right; right
      rw [he, hw3, ht]
      refine ⟨?_, hd, hm, hoob, hw1, hw2⟩
      rw [callbackEvents_append, callbackEvents_append, ho]
      rfl

/-- C1 (amended): in a non-procedural, non-test run — ticks iterated until
the first tick that emits a host callback, after which the host unmounts
the runner; orb-activation events are internal and do not end the run —
the run's callbacks are: none (fuel exhausted), exactly `onDie`
(with the player dead), exactly `onWin` (past the finish line), or — only
when a FREE-mode out-of-bounds death lands on the very tick that first
crosses the finish line — `onDie` followed by `onWin`, both fired on that one
tick.  `onTestComplete` never fires, each callback fires at most once, a die
callback implies the terminal dead state and a win callback implies the
player's x-position exceeds `length * TILE_SIZE` (with `length = 50`:
2400).  The claim's "exactly one fires per run" fails only in the listed
coincidence case. -/
theorem claim_C1_callbacks (cfg : Config) (hproc : cfg.isProcedural = false)
    (ht : cfg.isTestMode = false) (n : ℕ) (s : SimState) :
    callbackEvents (runToCallback cfg n s).2 = [] ∨
    (callbackEvents (runToCallback cfg n s).2 = [Event.onDie] ∧
      (runToCallback cfg n s).1.player.isDead = true) ∨
    (callbackEvents (runToCallback cfg n s).2 = [Event.onWin] ∧
      (runToCallback cfg n s).1.player.position.x > cfg.level.length * TILE_SIZE) ∨
    (callbackEvents (runToCallback cfg n s).2 = [Event.onDie, Event.onWin] ∧
      (runToCallback cfg n s).1.player.isDead = true ∧
      cfg.level.gameMode = GameMode.FREE ∧
      ((runToCallback cfg n s).1.player.position.y < -3000 ∨
        (runToCallback cfg n s).1.player.position.y > 1000) ∧
      (runToCallback cfg n s).1.player.position.x > cfg.level.length * TILE_SIZE) := by
  induction n generalizing s with
  | zero => exact Or.inl rfl
  | succ n ih =>
    rw [runToCallback]
    by_cases hr : callbackEvents (update cfg s).2 = []
    · rw [if_pos hr]
      exact ih (update cfg s).1
    · rw [if_neg hr]
      by_cases hd : s.player.isDead = true
      · exact absurd (by rw [update_dead_events cfg s hd]; try rfl) hr
      · have halive : s.player.isDead = false := by simpa using hd
        rcases update_callbacks_nontest cfg s ht halive with
          h | ⟨h1, h2⟩ | ⟨h1, _, h3⟩ | ⟨h1, h2, h3, h4, _, h6⟩
        · exact Or.inl h
        · exact Or.inr (Or.inl ⟨h1, h2⟩)
        · exact Or.inr (Or.inr (Or.inl ⟨h1, h3⟩))
        · exact Or.inr (Or.inr (Or.inr ⟨h1, h2, h3, h4, h6⟩))

/-- A FREE-mode level on which a single run fires both `onDie` and `onWin`:
a gravity portal flips the player upward at tile (3,1); a speed portal placed
high above the finish tile is never touched; the flipped player accelerates
upward (negative y), and on tick 122 the post-move position first exceeds the
3000px out-of-bounds band on the same tick its x first crosses
`24 * TILE_SIZE`, so the tick emits `onDie` followed by `onWin`. -/
def ceObjs : List LevelObject :=
  [⟨EntityType.PORTAL_GRAVITY, 3, 1⟩, ⟨EntityType.PORTAL_SPEED_VERY_FAST, 20, 54⟩]

def ceC1Cfg : Config := ⟨⟨ceObjs, 24, GameMode.FREE⟩, false, false⟩

/-- C1 counterexample: a non-procedural, non-test FREE run in which the
terminal tick emits `onDie` *and* `onWin` — two game-end callbacks fire in a
single run (and on a single tick), refuting "exactly one of the three
callbacks fires per run". -/
theorem claim_C1_counterexample :
    (runToCallback ceC1Cfg 200 initState).2 = [Event.onDie, Event.onWin] := by
  with_unfolding_all rfl

def c1WinCfg : Config := ⟨⟨[], 50, GameMode.CLASSIC⟩, false, false⟩

set_option maxRecDepth 40000

/-- C1 witness: on an empty length-50 CLASSIC level the amended theorem
applies, and the actual run ends with exactly the `onWin` callback (the
player having crossed `50 * TILE_SIZE = 2400`). -/
theorem claim_C1_witness :
    (callbackEvents (runToCallback c1WinCfg 300 initState).2 = [] ∨
    (callbackEvents (runToCallback c1WinCfg 300 initState).2 = [Event.onDie] ∧
      (runToCallback c1WinCfg 300 initState).1.player.isDead = true) ∨
    (callbackEvents (runToCallback c1WinCfg 300 initState).2 = [Event.onWin] ∧
      (runToCallback c1WinCfg 300 initState).1.player.position.x >
        c1WinCfg.level.length * TILE_SIZE) ∨
    (callbackEvents (runToCallback c1WinCfg 300 initState).2 =
        [Event.onDie, Event.onWin] ∧
      (runToCallback c1WinCfg 300 initState).1.player.isDead = true ∧
      c1WinCfg.level.gameMode = GameMode.FREE ∧
      ((runToCallback c1WinCfg 300 initState).1.player.position.y < -3000 ∨
        (runToCallback c1WinCfg 300 initState).1.player.position.y > 1000) ∧
      (runToCallback c1WinCfg 300 initState).1.player.position.x >
        c1WinCfg.level.length * TILE_SIZE)) ∧
    callbackEvents (runToCallback c1WinCfg 300 initState).2 = [Event.onWin] :=
  ⟨claim_C1_callbacks c1WinCfg rfl rfl 300 initState,
   by with_unfolding_all rfl⟩

/-- Test-completion events (`onTestComplete` with any payload). -/
def isTestCompleteEvent : Event → Bool
  | .onTestComplete _ _ => true
  | _ => false

/-- Number of `onTestComplete` callbacks among a tick's events. -/
def otcCount (es : List Event) : ℕ := (es.filter isTestCompleteEvent).length

lemma callback_mem_of_mem (es : List Event) (e : Event)
    (he : e ∈ es) (hc : isCallbackEvent e = true) : e ∈ callbackEvents es :=
  List.mem_filter.mpr ⟨he, hc⟩

/-- Callback shape of a single tick in test mode. -/
lemma update_callbacks_test (cfg : Config) (s : SimState)
    (ht : cfg.isTestMode = true) (halive : s.player.isDead = false) :
    callbackEvents (update cfg s).2 = [] ∨
    (callbackEvents (update cfg s).2 =
        [Event.onTestComplete (update cfg s).1.recordedTrail
          (some (update cfg s).1.player.position)] ∧
      (update cfg s).1.player.isDead = true) ∨
    (callbackEvents (update cfg s).2 =
        [Event.onTestComplete (update cfg s).1.recordedTrail none] ∧
      cfg.isProcedural = false ∧
      (update cfg s).1.player.position.x > cfg.level.length * TILE_SIZE) ∨
    (callbackEvents (update cfg s).2 =
        [Event.onTestComplete (update cfg s).1.recordedTrail
          (some (update cfg s).1.player.position),
         Event.onTestComplete (update cfg s).1.recordedTrail none] ∧
      (update cfg s).1.player.isDead = true ∧
      cfg.level.gameMode = GameMode.FREE ∧
      ((update cfg s).1.player.position.y < -3000 ∨
        (update cfg s).1.player.position.y > 1000) ∧
      cfg.isProcedural = false ∧
      (update cfg s).1.player.position.x > cfg.level.length * TILE_SIZE) := by
  rcases update_events_cases cfg s halive with
    ⟨orbs, ho, he, hd⟩ | ⟨orbs, w, ho, he, hd, hw⟩ |
    ⟨orbs, w, ho, he, hd, hm, hoob, hw⟩
  · right; left
    rw [he, ht]
    constructor
    · rw [callbackEvents_append, ho]
      rfl
    · exact hd
  · rcases hw with hw | ⟨hw1, hw2, hw3⟩
    · left
      rw [he, hw, callbackEvents_append, ho]
      rfl
    · right; right; left
      rw [he, hw3, ht]
      refine ⟨?_, hw1, hw2⟩
      rw [callbackEvents_append, ho]
      rfl
  · rcases hw with hw | ⟨hw1, hw2, hw3⟩
    · right; left
      rw [he, hw, ht]
      constructor
      · rw [List.append_nil, callbackEvents_append, ho]
        rfl
      · exact hd
    · right; right; right
      rw [he, hw3, ht]
      refine ⟨?_, hd, hm, hoob, hw1, hw2⟩
      rw [callbackEvents_append, callbackEvents_append, ho]
      rfl

/-- In test mode no tick ever emits `onDie` or `onWin`. -/
lemma update_no_die_win_test (cfg : Config) (s : SimState)
    (ht : cfg.isTestMode = true) :
    Event.onDie ∉ (update cfg s).2 ∧ Event.onWin ∉ (update cfg s).2 := by
  by_cases hd : s.player.isDead = true
  · rw [update_dead_events cfg s hd]
    exact ⟨List.not_mem_nil _, List.not_mem_nil _⟩
  · have halive : s.player.isDead = false := by simpa using hd
    rcases update_callbacks_test cfg s ht halive with
      h | ⟨h, _⟩ | ⟨h, _⟩ | ⟨h, _⟩ <;>
      exact ⟨fun hmem => by
          have hh := callback_mem_of_mem _ _ hmem rfl
          rw [h] at hh
          simp at hh,
        fun hmem => by
          have hh := callback_mem_of_mem _ _ hmem rfl
          rw [h] at hh
          simp at hh⟩

/-- C7 (amended): a test-mode run never fires `onDie` or `onWin`, and its
callbacks are: none (fuel exhausted), exactly one `onTestComplete` carrying
the recorded trail and the death position (player dead), exactly one
`onTestComplete` carrying the trail and no death position (finish line
crossed), or — only when a FREE-mode out-of-bounds death lands on the very
tick that first crosses the finish line — *two* `onTestComplete` callbacks
on that one tick, first with the death position and then without.  The
claim's "exactly [one completion callback]" fails only in that coincidence
case. -/
theorem claim_C7_testmode (cfg : Config) (ht : cfg.isTestMode = true)
    (n : ℕ) (s : SimState) :
    Event.onDie ∉ (runToCallback cfg n s).2 ∧
    Event.onWin ∉ (runToCallback cfg n s).2 ∧
    (callbackEvents (runToCallback cfg n s).2 = [] ∨
     (callbackEvents (runToCallback cfg n s).2 =
         [Event.onTestComplete (runToCallback cfg n s).1.recordedTrail
           (some (runToCallback cfg n s).1.player.position)] ∧
       (runToCallback cfg n s).1.player.isDead = true) ∨
     (callbackEvents (runToCallback cfg n s).2 =
         [Event.onTestComplete (runToCallback cfg n s).1.recordedTrail none] ∧
       (runToCallback cfg n s).1.player.position.x >
         cfg.level.length * TILE_SIZE) ∨
     (callbackEvents (runToCallback cfg n s).2 =
         [Event.onTestComplete (runToCallback cfg n s).1.recordedTrail
           (some (runToCallback cfg n s).1.player.position),
          Event.onTestComplete (runToCallback cfg n s).1.recordedTrail none] ∧
       (runToCallback cfg n s).1.player.isDead = true ∧
       cfg.level.gameMode = GameMode.FREE ∧
       ((runToCallback cfg n s).1.player.position.y < -3000 ∨
         (runToCallback cfg n s).1.player.position.y > 1000) ∧
       (runToCallback cfg n s).1.player.position.x >
         cfg.level.length * TILE_SIZE)) := by
  induction n generalizing s with
  | zero => exact ⟨List.not_mem_nil _, List.not_mem_nil _, Or.inl rfl⟩
  | succ n ih =>
    rw [runToCallback]
    by_cases hr : callbackEvents (update cfg s).2 = []
    · rw [if_pos hr]
      exact ih (update cfg s).1
    · rw [if_neg hr]
      refine ⟨(update_no_die_win_test cfg s ht).1,
        (update_no_die_win_test cfg s ht).2, ?_⟩
      by_cases hd : s.player.isDead = true
      · exact absurd (by rw [update_dead_events cfg s hd]; try rfl) hr
      · have halive : s.player.isDead = false := by simpa using hd
        rcases update_callbacks_test cfg s ht halive with
          h | ⟨h1, h2⟩ | ⟨h1, _, h3⟩ | ⟨h1, h2, h3, h4, _, h6⟩
        · exact Or.inl h
        · exact Or.inr (Or.inl ⟨h1, h2⟩)
        · exact Or.inr (Or.inr (Or.inl ⟨h1, h3⟩))
        · exact Or.inr (Or.inr (Or.inr ⟨h1, h2, h3, h4, h6⟩))

def ceC7Cfg : Config := ⟨⟨ceObjs, 24, GameMode.FREE⟩, false, true⟩

/-- C7 counterexample: testing the same FREE level in the editor, the
terminal tick fires the completion callback *twice* — once with the death
position and once without — refuting "exactly [one] completion callback". -/
theorem claim_C7_counterexample :
    otcCount (runToCallback ceC7Cfg 200 initState).2 = 2 := by
  with_unfolding_all rfl

def c7TestCfg : Config :=
  ⟨⟨[⟨EntityType.SPIKE, 3, 1⟩], 50, GameMode.CLASSIC⟩, false, true⟩

/-- C7 witness: testing a CLASSIC level with one spike, the amended theorem
applies and the run ends with exactly one completion callback carrying the
recorded trail and the death position. -/
theorem claim_C7_witness :
    (Event.onDie ∉ (runToCallback c7TestCfg 30 initState).2 ∧
     Event.onWin ∉ (runToCallback c7TestCfg 30 initState).2 ∧
     (callbackEvents (runToCallback c7TestCfg 30 initState).2 = [] ∨
      (callbackEvents (runToCallback c7TestCfg 30 initState).2 =
          [Event.onTestComplete
            (runToCallback c7TestCfg 30 initState).1.recordedTrail
            (some (runToCallback c7TestCfg 30 initState).1.player.position)] ∧
        (runToCallback c7TestCfg 30 initState).1.player.isDead = true) ∨
      (callbackEvents (runToCallback c7TestCfg 30 initState).2 =
          [Event.onTestComplete
            (runToCallback c7TestCfg 30 initState).1.recordedTrail none] ∧
        (runToCallback c7TestCfg 30 initState).1.player.position.x >
          c7TestCfg.level.length * TILE_SIZE) ∨
      (callbackEvents (runToCallback c7TestCfg 30 initState).2 =
          [Event.onTestComplete
            (runToCallback c7TestCfg 30 initState).1.recordedTrail
            (some (runToCallback c7TestCfg 30 initState).1.player.position),
           Event.onTestComplete
            (runToCallback c7TestCfg 30 initState).1.recordedTrail none] ∧
        (runToCallback c7TestCfg 30 initState).1.player.isDead = true ∧
        c7TestCfg.level.gameMode = GameMode.FREE ∧
        ((runToCallback c7TestCfg 30 initState).1.player.position.y < -3000 ∨
          (runToCallback c7TestCfg 30 initState).1.player.position.y > 1000) ∧
        (runToCallback c7TestCfg 30 initState).1.player.position.x >
          c7TestCfg.level.length * TILE_SIZE))) ∧
    callbackEvents (runToCallback c7TestCfg 30 initState).2 =
      [Event.onTestComplete (runToCallback c7TestCfg 30 initState).1.recordedTrail
        (some (runToCallback c7TestCfg 30 initState).1.player.position)] :=
  ⟨claim_C7_testmode c7TestCfg rfl 30 initState,
   by with_unfolding_all rfl⟩

/-! ## C8: gravity mirror symmetry -/

/-- The vertical mirror of a player about the midplane between the floor
contact plane (`y = 0`) and the CLASSIC ceiling contact plane
(`y = -(CEILING_HEIGHT*TILE_SIZE) + TILE_SIZE = -528`): the spec's "replace
`gravityScale` with its negation and mirror all vertical quantities". -/
def mirrorPlayer (p : Player) : Player :=
  { position := ⟨p.position.x, -528 - p.position.y⟩,
    velocity := ⟨p.velocity.x, -p.velocity.y⟩,
    isGrounded := p.isGrounded, isDead := p.isDead,
    rotation := -p.rotation, gravityScale := -p.gravityScale,
    canOrbJump := p.canOrbJump, speedMultiplier := p.speedMultiplier,
    lastPortalX := p.lastPortalX }

/-- The corresponding mirror of a level tile: grid row `y` maps to `13 - y`
(a tile's top edge `-48*y` maps to `-576 + 48*y - 48`). -/
def mirrorObj (o : LevelObject) : LevelObject := { o with y := 13 - o.y }

def mirrorLevel (lv : LevelData) : LevelData :=
  { lv with objects := lv.objects.map mirrorObj }

def mirrorCfg (cfg : Config) : Config := { cfg with level := mirrorLevel cfg.level }

def mirrorState (s : SimState) : SimState := { s with player := mirrorPlayer s.player }

/-- The induced mirror on axis-aligned rectangles (the player hitbox plane
`y = -576` stays fixed as a *rectangle-top* coordinate). -/
def mirrorRect (r : Rect) : Rect := ⟨r.x, -576 - r.y - r.h, r.w, r.h⟩

/-- Levels whose objects are only solids and full spikes: the two entity
kinds whose hitboxes are vertically symmetric within their tile (half-spikes,
orbs and portals are not mirror-invariant). -/
def blockSpikeOnly (objs : List LevelObject) : Prop :=
  ∀ o ∈ objs, o.type = EntityType.BLOCK ∨ o.type = EntityType.SPIKE

/-- States at which one tick is exactly mirror-symmetric.  A grounded player
must avoid the two 2px bands where the stability check is asymmetric (the
ceiling support test accepts `y ≤ -526`, 2px beyond the exact mirror
`y ≤ -528` of the floor support test `y ≥ 0`), and a rotation whose snap
target sits exactly between two right angles (JS `Math.round` rounds halves
up, which does not commute with negation there). -/
def mirrorReady (p : Player) : Prop :=
  (p.gravityScale = 1 ∨ p.gravityScale = -1) ∧
  (p.isGrounded = true →
    (p.gravityScale = 1 → p.position.y < -2 ∨ p.position.y ≥ 0) ∧
    (p.gravityScale = -1 → p.position.y ≤ -528 ∨ p.position.y > -526) ∧
    (p.rotation / 90 - 1/2).den ≠ 1)

instance (p : Player) : Decidable (mirrorReady p) := by
  unfold mirrorReady
  infer_instance

lemma jsRound_neg (x : ℚ) (h : (x - 1/2).den ≠ 1) :
    jsRound (-x) = -jsRound x := by
  have hne : ((⌊x - 1/2⌋ : ℤ) : ℚ) ≠ x - 1/2 := by
    intro heq
    apply h
    rw [← heq]
    exact Rat.den_intCast _
  have hlt : ((⌊x - 1/2⌋ : ℤ) : ℚ) < x - 1/2 :=
    lt_of_le_of_ne (Int.floor_le _) hne
  have hceil : ⌈x - 1/2⌉ = ⌊x - 1/2⌋ + 1 := by
    have h1 : ⌈x - 1/2⌉ ≤ ⌊x - 1/2⌋ + 1 := by
      apply Int.ceil_le.mpr
      push_cast
      linarith [Int.lt_floor_add_one (x - 1/2)]
    have h2 : ⌊x - 1/2⌋ < ⌈x - 1/2⌉ := by
      have := Int.le_ceil (x - 1/2)
      exact_mod_cast hlt.trans_le this
    omega
  have hfl : jsRound x = ⌊x - 1/2⌋ + 1 := by
    unfold jsRound
    have : x + 1/2 = (x - 1/2) + 1 := by ring
    rw [this, Int.floor_add_one]
  have hneg : jsRound (-x) = -⌈x - 1/2⌉ := by
    unfold jsRound
    have : -x + 1/2 = -(x - 1/2) := by ring
    rw [this, Int.floor_neg]
  rw [hneg, hceil, hfl]

lemma checkCollision_mirror (r1 r2 : Rect) :
    checkCollision (mirrorRect r1) (mirrorRect r2) = checkCollision r1 r2 := by
  rw [Bool.eq_iff_iff]
  simp only [checkCollision, mirrorRect, Bool.and_eq_true, decide_eq_true_eq]
  constructor
  · rintro ⟨⟨⟨h1, h2⟩, h3⟩, h4⟩
    exact ⟨⟨⟨h1, h2⟩, by linarith⟩, by linarith⟩
  · rintro ⟨⟨⟨h1, h2⟩, h3⟩, h4⟩
    exact ⟨⟨⟨h1, h2⟩, by linarith⟩, by linarith⟩

lemma playerRect_mirror (p : Player) :
    playerRect (mirrorPlayer p) = mirrorRect (playerRect p) := by
  unfold playerRect mirrorPlayer mirrorRect TILE_SIZE
  simp only [Rect.mk.injEq, and_true, true_and]
  ring

lemma mirrorPlayer_isGrounded (p : Player) :
    (mirrorPlayer p).isGrounded = p.isGrounded := rfl

/-- The floor/ceiling support test of the stability check (lines 297–305),
as a named function so the mirror argument can rewrite it. -/
def planeOkOf (mode : GameMode) (p : Player) : Bool :=
  if p.gravityScale = 1 then decide (p.position.y ≥ 0)
  else decide (mode ≠ GameMode.FREE) &&
    decide (p.position.y ≤ -(CEILING_HEIGHT * TILE_SIZE) + TILE_SIZE + 2)

/-- The block support test of the stability check (lines 307–329). -/
def blockOkOf (objs : List LevelObject) (p : Player) : Bool :=
  objs.any fun o =>
    o.type == EntityType.BLOCK &&
    (let oX := o.x * TILE_SIZE
     let oY := -(o.y) * TILE_SIZE
     decide (p.position.x + TILE_SIZE / 2 > oX) &&
     decide (p.position.x + TILE_SIZE / 2 < oX + TILE_SIZE) &&
     (if p.gravityScale = 1 then decide (|p.position.y - oY| < 5)
      else decide (|p.position.y - (oY + 2 * TILE_SIZE)| < 5)))

lemma stabilityStep_eq (mode : GameMode) (objs : List LevelObject) (inp : Input)
    (p : Player) :
    stabilityStep mode objs inp p =
      if p.isGrounded && !inp.jump then
        (if planeOkOf mode p || blockOkOf objs p then p
         else { p with isGrounded := false })
      else p := rfl

lemma planeOkOf_mirror (p : Player)
    (hg : p.gravityScale = 1 ∨ p.gravityScale = -1)
    (h1 : p.gravityScale = 1 → p.position.y < -2 ∨ p.position.y ≥ 0)
    (h2 : p.gravityScale = -1 → p.position.y ≤ -528 ∨ p.position.y > -526) :
    planeOkOf GameMode.CLASSIC (mirrorPlayer p) = planeOkOf GameMode.CLASSIC p := by
  rcases hg with hg | hg
  · have hband := h1 hg
    unfold planeOkOf
    dsimp only [mirrorPlayer]
    rw [hg]
    rw [if_neg (by norm_num : ¬((-(1 : ℚ)) = 1)), if_pos rfl]
    rw [Bool.eq_iff_iff]
    simp only [Bool.and_eq_true, decide_eq_true_eq, ne_eq]
    unfold CEILING_HEIGHT TILE_SIZE
    constructor
    · rintro ⟨-, hle⟩
      rcases hband with hlt | hge
      · linarith
      · linarith
    · intro hge
      exact ⟨fun hc => GameMode.noConfusion hc, by linarith⟩
  · have hband := h2 hg
    unfold planeOkOf
    dsimp only [mirrorPlayer]
    rw [hg]
    rw [if_pos (by norm_num : (-(-1 : ℚ)) = 1), if_neg (by norm_num : ¬((-1 : ℚ) = 1))]
    rw [Bool.eq_iff_iff]
    simp only [Bool.and_eq_true, decide_eq_true_eq, ne_eq]
    unfold CEILING_HEIGHT TILE_SIZE
    constructor
    · intro hge
      exact ⟨fun hc => GameMode.noConfusion hc, by linarith⟩
    · rintro ⟨-, hle⟩
      rcases hband with hle' | hgt
      · linarith
      · linarith

lemma blockOkOf_mirror (objs : List LevelObject) (p : Player)
    (hg : p.gravityScale = 1 ∨ p.gravityScale = -1) :
    blockOkOf (objs.map mirrorObj) (mirrorPlayer p) = blockOkOf objs p := by
  unfold blockOkOf
  rw [List.any_map]
  congr 1
  funext o
  dsimp only [Function.comp, mirrorObj, mirrorPlayer]
  congr 1
  rcases hg with hg | hg
  · rw [hg]
    rw [if_neg (by norm_num : ¬((-(1 : ℚ)) = 1)), if_pos rfl]
    congr 1
    have he : -528 - p.position.y - (-(13 - o.y) * TILE_SIZE + 2 * TILE_SIZE) =
        -(p.position.y - -(o.y) * TILE_SIZE) := by
      unfold TILE_SIZE; ring
    rw [he, abs_neg]
  · rw [hg]
    rw [if_pos (by norm_num : (-(-1 : ℚ)) = 1), if_neg (by norm_num : ¬((-1 : ℚ) = 1))]
    congr 1
    have he : -528 - p.position.y - -(13 - o.y) * TILE_SIZE =
        -(p.position.y - (-(o.y) * TILE_SIZE + 2 * TILE_SIZE)) := by
      unfold TILE_SIZE; ring
    rw [he, abs_neg]

lemma stabilityStep_mirror (objs : List LevelObject) (inp : Input) (p : Player)
    (hg : p.gravityScale = 1 ∨ p.gravityScale = -1)
    (hb : p.isGrounded = true →
      (p.gravityScale = 1 → p.position.y < -2 ∨ p.position.y ≥ 0) ∧
      (p.gravityScale = -1 → p.position.y ≤ -528 ∨ p.position.y > -526)) :
    stabilityStep GameMode.CLASSIC (objs.map mirrorObj) inp (mirrorPlayer p)
      = mirrorPlayer (stabilityStep GameMode.CLASSIC objs inp p) := by
  rw [stabilityStep_eq, stabilityStep_eq]
  simp only [mirrorPlayer_isGrounded]
  by_cases hgr : (p.isGrounded && !inp.jump) = true
  · have hpg : p.isGrounded = true := by
      have hh := hgr
      simp only [Bool.and_eq_true] at hh
      exact hh.1
    rw [if_pos hgr, if_pos hgr,
      planeOkOf_mirror p hg (hb hpg).1 (hb hpg).2,
      blockOkOf_mirror objs p hg]
    split_ifs <;> rfl
  · rw [if_neg hgr, if_neg hgr]

/-- The final vertical velocity of the physics update (lines 337–358). -/
def vyAfter (i : Input) (p : Player) : ℚ :=
  let vy0 := if !p.isGrounded then p.velocity.y + GRAVITY * p.gravityScale else 0
  let vy1 := if i.jump && p.isGrounded then JUMP_FORCE * p.gravityScale else vy0
  if p.gravityScale = 1 then
    (if vy1 > TERMINAL_VELOCITY then TERMINAL_VELOCITY else vy1)
  else
    (if vy1 < -TERMINAL_VELOCITY then -TERMINAL_VELOCITY else vy1)

def groundedAfter (i : Input) (p : Player) : Bool :=
  if i.jump && p.isGrounded then false else p.isGrounded

def canOrbAfter (i : Input) (p : Player) : Bool :=
  if i.jump && p.isGrounded then false else p.canOrbJump

lemma physicsStep_eq (i : Input) (p : Player) :
    physicsStep i p =
      { p with velocity := ⟨MOVE_SPEED * p.speedMultiplier, vyAfter i p⟩,
               isGrounded := groundedAfter i p,
               canOrbJump := canOrbAfter i p } := by
  unfold physicsStep vyAfter groundedAfter canOrbAfter
  dsimp only
  split_ifs <;> rfl

lemma vyAfter_mirror (i : Input) (p : Player)
    (hg : p.gravityScale = 1 ∨ p.gravityScale = -1) :
    vyAfter i (mirrorPlayer p) = -(vyAfter i p) := by
  rcases hg with hg | hg <;>
    (unfold vyAfter GRAVITY JUMP_FORCE TERMINAL_VELOCITY
     dsimp only [mirrorPlayer]
     rw [hg]
     norm_num
     split_ifs)
  all_goals try ring
  all_goals try norm_num
  all_goals try linarith
  all_goals (exfalso; linarith)

lemma groundedAfter_mirror (i : Input) (p : Player) :
    groundedAfter i (mirrorPlayer p) = groundedAfter i p := rfl

lemma canOrbAfter_mirror (i : Input) (p : Player) :
    canOrbAfter i (mirrorPlayer p) = canOrbAfter i p := rfl

lemma physicsStep_mirror (inp : Input) (p : Player)
    (hg : p.gravityScale = 1 ∨ p.gravityScale = -1) :
    physicsStep inp (mirrorPlayer p) = mirrorPlayer (physicsStep inp p) := by
  rw [physicsStep_eq, physicsStep_eq,
    vyAfter_mirror inp p hg, groundedAfter_mirror, canOrbAfter_mirror]
  rfl

lemma horizRotStep_mirror (p : Player)
    (hrot : p.isGrounded = true → (p.rotation / 90 - 1/2).den ≠ 1) :
    horizRotStep (mirrorPlayer p) = mirrorPlayer (horizRotStep p) := by
  unfold horizRotStep
  dsimp only [mirrorPlayer]
  by_cases hgr : p.isGrounded = true
  · rw [hgr]
    simp only [Bool.not_true, Bool.false_eq_true, if_false]
    have hden : ((-p.rotation) / 90).den = (p.rotation / 90).den := by
      rw [neg_div, Rat.neg_den]
    rw [hden]
    by_cases hd1 : (p.rotation / 90).den = 1
    · rw [if_pos hd1, if_pos hd1]
    · rw [if_neg hd1, if_neg hd1]
      have hjr : jsRound (-p.rotation / 90) = -jsRound (p.rotation / 90) := by
        rw [neg_div]
        exact jsRound_neg _ (hrot hgr)
      simp only [Player.mk.injEq, Vector2.mk.injEq, true_and, and_true]
      rw [hjr]
      push_cast
      ring
  · have hgr' : p.isGrounded = false := by simpa using hgr
    rw [hgr']
    simp only [Bool.not_false, if_true]
    simp only [Player.mk.injEq, Vector2.mk.injEq, true_and, and_true]
    ring

def mirrorLoopResult : LoopResult → LoopResult
  | .cont p i e => .cont (mirrorPlayer p) i e
  | .dead p i e => .dead (mirrorPlayer p) i e

lemma mirrorPlayer_velocity_y (p : Player) :
    (mirrorPlayer p).velocity.y = -p.velocity.y := rfl

lemma mirrorPlayer_update_dead (p : Player) :
    { mirrorPlayer p with isDead := true }
      = mirrorPlayer { p with isDead := true } := rfl

lemma mirrorPlayer_update_land (p : Player) (a b : ℚ) (h : a = -528 - b) :
    { mirrorPlayer p with position.y := a, velocity.y := 0, isGrounded := true }
      = mirrorPlayer
          { p with position.y := b, velocity.y := 0, isGrounded := true } := by
  unfold mirrorPlayer
  dsimp only
  rw [h, neg_zero]

lemma deathEvents_false (t : List Vector2) (pos : Vector2) :
    deathEvents false t pos = [Event.onDie] := rfl

lemma solidHitbox_block_mirror (ox oy : ℚ) :
    solidHitbox EntityType.BLOCK (ox * TILE_SIZE) (-(13 - oy) * TILE_SIZE)
      = mirrorRect (solidHitbox EntityType.BLOCK (ox * TILE_SIZE)
          (-(oy) * TILE_SIZE)) := by
  unfold solidHitbox mirrorRect
  rw [if_neg (by decide : ¬((EntityType.BLOCK == EntityType.SPIKE) = true)),
      if_neg (by decide : ¬((EntityType.BLOCK == EntityType.HALF_SPIKE) = true)),
      if_neg (by decide : ¬((EntityType.BLOCK == EntityType.SPIKE) = true)),
      if_neg (by decide : ¬((EntityType.BLOCK == EntityType.HALF_SPIKE) = true))]
  simp only [Rect.mk.injEq]
  refine ⟨trivial, ?_, trivial, trivial⟩
  unfold TILE_SIZE
  ring

lemma solidHitbox_spike_mirror (ox oy : ℚ) :
    solidHitbox EntityType.SPIKE (ox * TILE_SIZE) (-(13 - oy) * TILE_SIZE)
      = mirrorRect (solidHitbox EntityType.SPIKE (ox * TILE_SIZE)
          (-(oy) * TILE_SIZE)) := by
  unfold solidHitbox mirrorRect
  rw [if_pos (by decide : ((EntityType.SPIKE == EntityType.SPIKE) = true)),
      if_pos (by decide : ((EntityType.SPIKE == EntityType.SPIKE) = true))]
  simp only [Rect.mk.injEq]
  refine ⟨trivial, ?_, trivial, trivial⟩
  unfold TILE_SIZE
  ring

lemma runObjects_mirror (trailA trailB : List Vector2)
    (g prevY pCXA pCYA pCXB pCYB : ℚ) (pR : Rect)
    (hgm : g = 1 ∨ g = -1) (objs : List LevelObject)
    (hobj : blockSpikeOnly objs) (p : Player) (i : Input) (acc : List Event) :
    runObjects false trailB (-g) (-528 - prevY) pCXB pCYB (mirrorRect pR)
        (objs.map mirrorObj) (mirrorPlayer p) i acc
      = mirrorLoopResult
          (runObjects false trailA g prevY pCXA pCYA pR objs p i acc) := by
  induction objs generalizing p acc with
  | nil => rfl
  | cons o rest ih =>
    have ho := hobj o (List.mem_cons_self o rest)
    have hrest : blockSpikeOnly rest := fun o' h' => hobj o' (List.mem_cons_of_mem _ h')
    simp only [List.map_cons]
    rw [runObjects, runObjects]
    dsimp only [mirrorObj]
    rcases ho with ht | ht <;> rw [ht]
    · -- BLOCK
      rw [if_neg (by decide : ¬(isOrbType EntityType.BLOCK = true)),
          if_neg (by decide : ¬(isOrbType EntityType.BLOCK = true)),
          if_neg (by decide : ¬(isPortalType EntityType.BLOCK = true)),
          if_neg (by decide : ¬(isPortalType EntityType.BLOCK = true)),
          solidHitbox_block_mirror, checkCollision_mirror]
      by_cases hcol :
          checkCollision pR (solidHitbox EntityType.BLOCK (o.x * TILE_SIZE)
            (-(o.y) * TILE_SIZE)) = true
      · rw [if_pos hcol, if_pos hcol,
          if_neg (by decide :
            ¬((EntityType.BLOCK == EntityType.SPIKE ||
               EntityType.BLOCK == EntityType.HALF_SPIKE) = true)),
          if_neg (by decide :
            ¬((EntityType.BLOCK == EntityType.SPIKE ||
               EntityType.BLOCK == EntityType.HALF_SPIKE) = true)),
          if_pos (by decide : (EntityType.BLOCK == EntityType.BLOCK) = true),
          if_pos (by decide : (EntityType.BLOCK == EntityType.BLOCK) = true)]
        rcases hgm with hgm | hgm
        · -- g = 1: original lands on the block top, mirror on its underside
          rw [if_neg (show ¬(-g = 1) by rw [hgm]; norm_num), if_pos hgm]
          by_cases hland : p.velocity.y ≥ 0 ∧ prevY ≤ -(o.y) * TILE_SIZE + 15
          · rw [if_pos hland,
              if_pos (show (mirrorPlayer p).velocity.y ≤ 0 ∧
                  -528 - prevY - TILE_SIZE ≥
                    -(13 - o.y) * TILE_SIZE + TILE_SIZE - 15 by
                refine ⟨by rw [mirrorPlayer_velocity_y]; linarith [hland.1], ?_⟩
                have h2 := hland.2
                unfold TILE_SIZE at h2 ⊢
                linarith),
              mirrorPlayer_update_land p
                (-(13 - o.y) * TILE_SIZE + TILE_SIZE + TILE_SIZE)
                (-(o.y) * TILE_SIZE) (by unfold TILE_SIZE; ring)]
            exact (ih hrest _ _).trans rfl
          · rw [if_neg hland,
              if_neg (show ¬((mirrorPlayer p).velocity.y ≤ 0 ∧
                  -528 - prevY - TILE_SIZE ≥
                    -(13 - o.y) * TILE_SIZE + TILE_SIZE - 15) by
                rintro ⟨h1, h2⟩
                rw [mirrorPlayer_velocity_y] at h1
                apply hland
                refine ⟨by linarith, ?_⟩
                unfold TILE_SIZE at h2 ⊢
                linarith),
              mirrorPlayer_update_dead, deathEvents_false, deathEvents_false]
            rfl
        · -- g = -1: original lands on the underside, mirror on the top
          rw [if_pos (show -g = 1 by rw [hgm]; norm_num),
              if_neg (show ¬(g = 1) by rw [hgm]; norm_num)]
          by_cases hland : p.velocity.y ≤ 0 ∧
              prevY - TILE_SIZE ≥ -(o.y) * TILE_SIZE + TILE_SIZE - 15
          · rw [if_pos hland,
              if_pos (show (mirrorPlayer p).velocity.y ≥ 0 ∧
                  -528 - prevY ≤ -(13 - o.y) * TILE_SIZE + 15 by
                refine ⟨by rw [mirrorPlayer_velocity_y]; linarith [hland.1], ?_⟩
                have h2 := hland.2
                unfold TILE_SIZE at h2 ⊢
                linarith),
              mirrorPlayer_update_land p
                (-(13 - o.y) * TILE_SIZE)
                (-(o.y) * TILE_SIZE + TILE_SIZE + TILE_SIZE)
                (by unfold TILE_SIZE; ring)]
            exact (ih hrest _ _).trans rfl
          · rw [if_neg hland,
              if_neg (show ¬((mirrorPlayer p).velocity.y ≥ 0 ∧
                  -528 - prevY ≤ -(13 - o.y) * TILE_SIZE + 15) by
                rintro ⟨h1, h2⟩
                rw [mirrorPlayer_velocity_y] at h1
                apply hland
                refine ⟨by linarith, ?_⟩
                unfold TILE_SIZE at h2 ⊢
                linarith),
              mirrorPlayer_update_dead, deathEvents_false, deathEvents_false]
            rfl
      · rw [if_neg hcol, if_neg hcol]
        exact ih hrest _ _
    · -- SPIKE
      rw [if_neg (by decide : ¬(isOrbType EntityType.SPIKE = true)),
          if_neg (by decide : ¬(isOrbType EntityType.SPIKE = true)),
          if_neg (by decide : ¬(isPortalType EntityType.SPIKE = true)),
          if_neg (by decide : ¬(isPortalType EntityType.SPIKE = true)),
          solidHitbox_spike_mirror, checkCollision_mirror]
      by_cases hcol :
          checkCollision pR (solidHitbox EntityType.SPIKE (o.x * TILE_SIZE)
            (-(o.y) * TILE_SIZE)) = true
      · rw [if_pos hcol, if_pos hcol,
          if_pos (by decide :
            ((EntityType.SPIKE == EntityType.SPIKE ||
              EntityType.SPIKE == EntityType.HALF_SPIKE) = true)),
          if_pos (by decide :
            ((EntityType.SPIKE == EntityType.SPIKE ||
              EntityType.SPIKE == EntityType.HALF_SPIKE) = true)),
          mirrorPlayer_update_dead, deathEvents_false, deathEvents_false]
        rfl
      · rw [if_neg hcol, if_neg hcol]
        exact ih hrest _ _

lemma mirrorPlayer_gravityScale (p : Player) :
    (mirrorPlayer p).gravityScale = -p.gravityScale := rfl

lemma mirrorPlayer_isDead (p : Player) :
    (mirrorPlayer p).isDead = p.isDead := rfl

lemma stabilityStep_rotation (m : GameMode) (os : List LevelObject) (i : Input)
    (p : Player) : (stabilityStep m os i p).rotation = p.rotation := by
  unfold stabilityStep; dsimp only; split_ifs <;> rfl

lemma physicsStep_rotation (i : Input) (p : Player) :
    (physicsStep i p).rotation = p.rotation := by
  unfold physicsStep; dsimp only; split_ifs <;> rfl

lemma stabilityStep_grounded_mono (m : GameMode) (os : List LevelObject)
    (i : Input) (p : Player) :
    (stabilityStep m os i p).isGrounded = true → p.isGrounded = true := by
  unfold stabilityStep; dsimp only; split_ifs <;> intro h <;>
    first | exact h | exact h.elim | simp at h

lemma physicsStep_grounded_mono (i : Input) (p : Player) :
    (physicsStep i p).isGrounded = true → p.isGrounded = true := by
  rw [physicsStep_eq]
  dsimp only
  unfold groundedAfter
  split_ifs <;> intro h
  · simp at h
  · exact h

lemma preMoveOf_mirror (objs : List LevelObject) (inp : Input) (p : Player)
    (hg : p.gravityScale = 1 ∨ p.gravityScale = -1)
    (hb : p.isGrounded = true →
      (p.gravityScale = 1 → p.position.y < -2 ∨ p.position.y ≥ 0) ∧
      (p.gravityScale = -1 → p.position.y ≤ -528 ∨ p.position.y > -526))
    (hrot : p.isGrounded = true → (p.rotation / 90 - 1/2).den ≠ 1) :
    preMoveOf GameMode.CLASSIC (objs.map mirrorObj) inp (mirrorPlayer p)
      = mirrorPlayer (preMoveOf GameMode.CLASSIC objs inp p) := by
  unfold preMoveOf
  rw [stabilityStep_mirror objs inp p hg hb]
  rw [physicsStep_mirror inp _ (by rw [stabilityStep_gravityScale]; exact hg)]
  have hr2 : (physicsStep inp
        (stabilityStep GameMode.CLASSIC objs inp p)).isGrounded = true →
      ((physicsStep inp
        (stabilityStep GameMode.CLASSIC objs inp p)).rotation / 90 - 1/2).den ≠ 1 := by
    intro h
    rw [physicsStep_rotation, stabilityStep_rotation]
    exact hrot (stabilityStep_grounded_mono _ _ _ _
      (physicsStep_grounded_mono _ _ h))
  rw [horizRotStep_mirror _ hr2]

lemma mirrorPlayer_update_move (q : Player) :
    { mirrorPlayer q with position.y := (mirrorPlayer q).position.y + (mirrorPlayer q).velocity.y }
      = mirrorPlayer
          { q with position.y := q.position.y + q.velocity.y } := by
  unfold mirrorPlayer
  dsimp only
  rw [show -528 - q.position.y + -q.velocity.y
      = -528 - (q.position.y + q.velocity.y) by ring]

lemma movedOf_mirror (objs : List LevelObject) (inp : Input) (p : Player)
    (hg : p.gravityScale = 1 ∨ p.gravityScale = -1)
    (hb : p.isGrounded = true →
      (p.gravityScale = 1 → p.position.y < -2 ∨ p.position.y ≥ 0) ∧
      (p.gravityScale = -1 → p.position.y ≤ -528 ∨ p.position.y > -526))
    (hrot : p.isGrounded = true → (p.rotation / 90 - 1/2).den ≠ 1) :
    movedOf GameMode.CLASSIC (objs.map mirrorObj) inp (mirrorPlayer p)
      = mirrorPlayer (movedOf GameMode.CLASSIC objs inp p) := by
  unfold movedOf
  rw [preMoveOf_mirror objs inp p hg hb hrot]
  exact mirrorPlayer_update_move _

lemma prevYOf_mirror (objs : List LevelObject) (inp : Input) (p : Player)
    (hg : p.gravityScale = 1 ∨ p.gravityScale = -1)
    (hb : p.isGrounded = true →
      (p.gravityScale = 1 → p.position.y < -2 ∨ p.position.y ≥ 0) ∧
      (p.gravityScale = -1 → p.position.y ≤ -528 ∨ p.position.y > -526))
    (hrot : p.isGrounded = true → (p.rotation / 90 - 1/2).den ≠ 1) :
    prevYOf GameMode.CLASSIC (objs.map mirrorObj) inp (mirrorPlayer p)
      = -528 - prevYOf GameMode.CLASSIC objs inp p := by
  unfold prevYOf
  rw [preMoveOf_mirror objs inp p hg hb hrot]
  dsimp only [mirrorPlayer]
  ring

lemma winStep_mirror (isProc : Bool) (len : ℚ) (tA tB : List Vector2)
    (q : Player) :
    winStep isProc false len tB (mirrorPlayer q)
      = winStep isProc false len tA q := by
  unfold winStep
  dsimp only [mirrorPlayer]
  split_ifs <;> first | rfl | (exfalso; assumption)

lemma floorStep_mirror (g : ℚ) (hg : g = 1 ∨ g = -1) (tA tB : List Vector2)
    (p : Player) :
    floorStep GameMode.CLASSIC false (-g) tB (mirrorPlayer p)
      = (mirrorPlayer (floorStep GameMode.CLASSIC false g tA p).1,
         (floorStep GameMode.CLASSIC false g tA p).2) := by
  unfold floorStep
  simp only [mirrorPlayer_isDead]
  by_cases hd : p.isDead = true
  · rw [if_pos hd, if_pos hd]
  · rw [if_neg hd, if_neg hd]
    rcases hg with hg | hg <;> rw [hg]
    · rw [if_neg (by norm_num : ¬(-(1 : ℚ)) = 1), if_pos rfl,
        if_neg (by decide : ¬(GameMode.CLASSIC = GameMode.FREE))]
      by_cases hcl : p.position.y ≥ 0
      · rw [if_pos hcl,
          if_pos (show (mirrorPlayer p).position.y - TILE_SIZE ≤
              -(CEILING_HEIGHT * TILE_SIZE) by
            dsimp only [mirrorPlayer]
            unfold CEILING_HEIGHT TILE_SIZE
            linarith),
          Prod.mk.injEq]
        exact ⟨mirrorPlayer_update_land p
          (-(CEILING_HEIGHT * TILE_SIZE) + TILE_SIZE) 0
          (by unfold CEILING_HEIGHT TILE_SIZE; norm_num), rfl⟩
      · rw [if_neg hcl,
          if_neg (show ¬((mirrorPlayer p).position.y - TILE_SIZE ≤
              -(CEILING_HEIGHT * TILE_SIZE)) by
            dsimp only [mirrorPlayer]
            unfold CEILING_HEIGHT TILE_SIZE
            intro hc
            apply hcl
            linarith)]
    · rw [if_pos (by norm_num : (-(-1 : ℚ)) = 1),
        if_neg (by norm_num : ¬((-1 : ℚ) = 1)),
        if_neg (by decide : ¬(GameMode.CLASSIC = GameMode.FREE))]
      by_cases hcl : p.position.y - TILE_SIZE ≤ -(CEILING_HEIGHT * TILE_SIZE)
      · rw [if_pos hcl,
          if_pos (show (mirrorPlayer p).position.y ≥ 0 by
            dsimp only [mirrorPlayer]
            unfold CEILING_HEIGHT TILE_SIZE at hcl
            linarith),
          Prod.mk.injEq]
        exact ⟨mirrorPlayer_update_land p 0
          (-(CEILING_HEIGHT * TILE_SIZE) + TILE_SIZE)
          (by unfold CEILING_HEIGHT TILE_SIZE; norm_num), rfl⟩
      · rw [if_neg hcl,
          if_neg (show ¬((mirrorPlayer p).position.y ≥ 0) by
            dsimp only [mirrorPlayer]
            unfold CEILING_HEIGHT TILE_SIZE at hcl
            intro hc
            apply hcl
            linarith)]

lemma tickLoopOf_mirror (cfg : Config)
    (hmode : cfg.level.gameMode = GameMode.CLASSIC)
    (ht : cfg.isTestMode = false) (hobj : blockSpikeOnly cfg.level.objects)
    (s sB : SimState) (his : sB.input = s.input)
    (hps : sB.player = mirrorPlayer s.player)
    (hg : s.player.gravityScale = 1 ∨ s.player.gravityScale = -1)
    (hb : s.player.isGrounded = true →
      (s.player.gravityScale = 1 →
        s.player.position.y < -2 ∨ s.player.position.y ≥ 0) ∧
      (s.player.gravityScale = -1 →
        s.player.position.y ≤ -528 ∨ s.player.position.y > -526))
    (hrot : s.player.isGrounded = true →
      (s.player.rotation / 90 - 1/2).den ≠ 1) :
    tickLoopOf (mirrorCfg cfg) sB = mirrorLoopResult (tickLoopOf cfg s) := by
  unfold tickLoopOf
  dsimp only [mirrorCfg, mirrorLevel]
  rw [hmode, ht, his, hps, mirrorPlayer_gravityScale,
    movedOf_mirror cfg.level.objects s.input s.player hg hb hrot,
    prevYOf_mirror cfg.level.objects s.input s.player hg hb hrot,
    playerRect_mirror]
  exact runObjects_mirror _ _
    s.player.gravityScale _ _ _ _ _ _ hg cfg.level.objects hobj _ s.input []

lemma update_mirror (cfg : Config)
    (hmode : cfg.level.gameMode = GameMode.CLASSIC)
    (ht : cfg.isTestMode = false) (hobj : blockSpikeOnly cfg.level.objects)
    (s sB : SimState) (hts : sB.time = s.time) (his : sB.input = s.input)
    (hps : sB.player = mirrorPlayer s.player)
    (hready : mirrorReady s.player) :
    (update (mirrorCfg cfg) sB).1.time = (update cfg s).1.time ∧
    (update (mirrorCfg cfg) sB).1.input = (update cfg s).1.input ∧
    (update (mirrorCfg cfg) sB).1.player
      = mirrorPlayer (update cfg s).1.player := by
  have hg := hready.1
  have hb : s.player.isGrounded = true →
      (s.player.gravityScale = 1 →
        s.player.position.y < -2 ∨ s.player.position.y ≥ 0) ∧
      (s.player.gravityScale = -1 →
        s.player.position.y ≤ -528 ∨ s.player.position.y > -526) :=
    fun h => ⟨(hready.2 h).1, (hready.2 h).2.1⟩
  have hrot : s.player.isGrounded = true →
      (s.player.rotation / 90 - 1/2).den ≠ 1 :=
    fun h => (hready.2 h).2.2
  unfold update
  dsimp only
  by_cases hd : s.player.isDead = true
  · have hdB : sB.player.isDead = true := by
      rw [hps, mirrorPlayer_isDead]; exact hd
    rw [if_pos hd, if_pos hdB]
    exact ⟨by rw [hts], his, hps⟩
  · have hdB : ¬sB.player.isDead = true := by
      rw [hps, mirrorPlayer_isDead]; exact hd
    rw [if_neg hd, if_neg hdB,
      tickLoopOf_mirror cfg hmode ht hobj s sB his hps hg hb hrot]
    cases hres : tickLoopOf cfg s with
    | dead p2 i2 evts =>
      dsimp only [mirrorLoopResult]
      exact ⟨by rw [hts], rfl, rfl⟩
    | cont p2 i2 evts =>
      try dsimp only [mirrorLoopResult]
      try dsimp only [mirrorCfg, mirrorLevel]
      rw [hmode, ht, hps, mirrorPlayer_gravityScale]
      rw [floorStep_mirror s.player.gravityScale hg (trailOf cfg s) _ p2]
      exact ⟨by rw [hts], rfl, rfl⟩

/-- C8 (amended): on CLASSIC levels containing only BLOCK and SPIKE tiles
(the entity kinds whose hitboxes are vertically symmetric within their
tile), negating `gravityScale` and mirroring every vertical quantity about
the midplane between the floor plane and the ceiling plane — player
position `y ↦ -528 - y`, velocity `vy ↦ -vy`, rotation `r ↦ -r`, level
rows `y ↦ 13 - y` — commutes with any number of simulation ticks, provided
every visited state is `mirrorReady`: gravity is ±1 and a grounded player
avoids the two 2px bands where the stability check is asymmetric (the
ceiling support accepts `y ≤ -526`, two pixels beyond the exact mirror
`y ≤ -528` of the floor support `y ≥ 0`) as well as rotations whose snap
target sits exactly between two right angles (JS `Math.round` rounds
halves up).  Outside those slack bands the claimed symmetry holds
exactly. -/
theorem claim_C8_gravity_mirror (cfg : Config)
    (hmode : cfg.level.gameMode = GameMode.CLASSIC)
    (ht : cfg.isTestMode = false) (hobj : blockSpikeOnly cfg.level.objects)
    (n : ℕ) (s sB : SimState) (hts : sB.time = s.time)
    (his : sB.input = s.input) (hps : sB.player = mirrorPlayer s.player)
    (hstep : ∀ k, k < n → mirrorReady ((runTicks cfg k s).player)) :
    (runTicks (mirrorCfg cfg) n sB).player
      = mirrorPlayer ((runTicks cfg n s).player) := by
  induction n generalizing s sB with
  | zero => exact hps
  | succ n ih =>
    have h0 : mirrorReady s.player := hstep 0 (Nat.succ_pos n)
    rw [runTicks, runTicks]
    have hm := update_mirror cfg hmode ht hobj s sB hts his hps h0
    exact ih (update cfg s).1 (update (mirrorCfg cfg) sB).1 hm.1 hm.2.1 hm.2.2
      (fun k hk => hstep (k + 1) (Nat.succ_lt_succ hk))

def c8Cfg : Config := ⟨⟨[], 200, GameMode.CLASSIC⟩, false, false⟩

def c8CexPlayer : Player :=
  { position := ⟨0, -527⟩, velocity := ⟨9, 0⟩, isGrounded := true,
    isDead := false, rotation := 0, gravityScale := -1, canOrbJump := true,
    speedMultiplier := 1, lastPortalX := none }

def c8CexState : SimState :=
  { time := 0, player := c8CexPlayer, input := ⟨false, false⟩,
    recordedTrail := [] }

/-- C8 counterexample: a grounded inverted-gravity player resting at
`y = -527` — inside the 2px ceiling-support slack band — stays put for a
tick, while its mirror image at `y = -1` under normal gravity is *not*
supported (floor support requires `y ≥ 0`), falls, and is clamped to the
floor at `y = 0 ≠ -(-528) - (-527) = -1`: the mirrored trajectories
diverge, refuting the unconditional symmetry claim. -/
theorem claim_C8_counterexample :
    (runTicks (mirrorCfg c8Cfg) 1 (mirrorState c8CexState)).player
      ≠ mirrorPlayer ((runTicks c8Cfg 1 c8CexState).player) :=
  of_decide_eq_true (by with_unfolding_all rfl)

def c8WitCfg : Config :=
  ⟨⟨[⟨EntityType.BLOCK, 30, 2⟩, ⟨EntityType.SPIKE, 40, 1⟩], 100,
    GameMode.CLASSIC⟩, false, false⟩

/-- C8 witness: on a CLASSIC level with one block and one spike the amended
theorem applies to a 3-tick run from the reset state (every visited state is
`mirrorReady`), and the mirrored run tracks the mirrored player exactly. -/
theorem claim_C8_witness :
    (∀ k, k < 3 → mirrorReady ((runTicks c8WitCfg k initState).player)) ∧
    (runTicks (mirrorCfg c8WitCfg) 3 (mirrorState initState)).player
      = mirrorPlayer ((runTicks c8WitCfg 3 initState).player) := by
  have hstep : ∀ k, k < 3 →
      mirrorReady ((runTicks c8WitCfg k initState).player) := by
    intro k hk
    interval_cases k <;> exact of_decide_eq_true (by with_unfolding_all rfl)
  refine ⟨hstep, claim_C8_gravity_mirror c8WitCfg rfl rfl ?_ 3 initState
    (mirrorState initState) rfl rfl rfl hstep⟩
  intro o ho
  rcases List.mem_cons.mp ho with h | h
  · rw [h]; left; rfl
  · rcases List.mem_cons.mp h with h2 | h2
    · rw [h2]; right; rfl
    · exact absurd h2 (List.not_mem_nil o)
